import Mathlib

/-!
# KubeVirt: node label admission and RBAC reconciliation

A shallow embedding of

* `pkg/virt-api/webhooks/validating-webhook/admitters/node-admitter.go`
  (the node label admission decision), and
* `pkg/virt-operator/install-strategy/rolebasedaccesscontrol.go`
  (creation, update and backup of the four RBAC kinds),

followed by theorems about the embedded functions.

Conventions. A Go `error` is the text of its `Error()` method. A function of
the two files that returns `(v, err)` returns a pair whose second component is
`none` for a nil error; a call into a library or the cluster that returns a
value or an error is an `Except`. A nilable Go map is an `Option` of an
association list. A Go body that can hit a run-time panic returns an `Exec`.
Logging calls have no counterpart.
-/

set_option autoImplicit false

/-! ## Go values -/

/-- A Go `error`, identified with the text returned by its `Error()` method. -/
abbrev GoError := String

/-- A non-nil Go `map[string]string` as an association list. The keys of a map
are distinct; `StringMap.WF` says so. -/
abbrev StringMap := List (String × String)

/-- The keys of a Go map are pairwise distinct. -/
def StringMap.WF (m : StringMap) : Prop := (m.map Prod.fst).Nodup

/-- What running a Go function body gives: it returns a value, or a run-time
panic unwinds it. -/
inductive Exec (α : Type) where
  | returns (a : α)
  | panics (reason : String)
  deriving DecidableEq, Repr

/-- Go `_, ok := m[k]` on a nilable map. -/
def mapHas (m : Option StringMap) (k : String) : Bool :=
  match m with
  | none => false
  | some kvs => (kvs.lookup k).isSome

/-- Go `m[k]` on a nilable map: the zero value when the key is missing. -/
def mapGet (m : Option StringMap) (k : String) : String :=
  match m with
  | none => ""
  | some kvs => (kvs.lookup k).getD ""

/-- The entries a Go `range` over a nilable map visits (none for a nil map). -/
def mapRange (m : Option StringMap) : List (String × String) :=
  match m with
  | none => []
  | some kvs => kvs

/-- Go `reflect.DeepEqual` on two `map[string]string` values: both nil or both
non-nil, the same length, and every key of the first bound to the same value in
the second. -/
def DeepEqual (a b : Option StringMap) : Bool :=
  match a, b with
  | none, none => true
  | some x, some y =>
    x.length == y.length && x.all (fun kv => y.lookup kv.1 == some kv.2)
  | _, _ => false

/-- Go `strconv.ParseInt(s, 10, 64)`: an optional sign, then at least one
decimal digit and nothing else, and a value that fits a signed 64-bit integer;
`none` stands for a non-nil error. -/
def ParseInt (s : String) : Option Int :=
  let cs := s.toList
  let neg := cs.head? == some '-'
  let ds := if cs.head? == some '-' || cs.head? == some '+' then cs.tail else cs
  if ds.isEmpty || !ds.all Char.isDigit then none
  else
    let n : Nat := ds.foldl (fun a c => 10 * a + (c.toNat - 48)) 0
    if neg then (if n ≤ 2 ^ 63 then some (-(n : Int)) else none)
    else (if n < 2 ^ 63 then some (n : Int) else none)

/-! ## The label selector library (`k8s.io/apimachinery/pkg/labels`) -/

namespace selection

/-- The type `selection.Operator`, a Go string type. -/
abbrev Operator := String

def DoesNotExist : Operator := "!"
def Equals : Operator := "="
def DoubleEquals : Operator := "=="
def In : Operator := "in"
def NotEquals : Operator := "!="
def NotIn : Operator := "notin"
def Exists : Operator := "exists"
def GreaterThan : Operator := "gt"
def LessThan : Operator := "lt"

end selection

namespace validation

/-- The character class `[A-Za-z0-9]`. -/
def qnameChar (c : Char) : Bool := c.isAlphanum

/-- The character class `[-A-Za-z0-9_.]`. -/
def qnameExtChar (c : Char) : Bool := c.isAlphanum || c == '-' || c == '_' || c == '.'

/-- The anchored pattern `([A-Za-z0-9][-A-Za-z0-9_.]*)?[A-Za-z0-9]`. -/
def qualifiedNameRegexp (cs : List Char) : Bool :=
  match cs.head?, cs.getLast? with
  | some a, some z => qnameChar a && qnameChar z && cs.all qnameExtChar
  | _, _ => false

/-- Split a character list at every occurrence of `sep` (Go `strings.Split`
with a one-character separator). -/
def splitAt (sep : Char) : List Char → List (List Char)
  | [] => [[]]
  | c :: cs =>
    if c == sep then [] :: splitAt sep cs
    else
      match splitAt sep cs with
      | [] => [[c]]
      | p :: ps => (c :: p) :: ps

/-- The length in bytes of the UTF-8 encoding (Go `len` of a string). -/
def byteLen (cs : List Char) : Nat := (String.mk cs).utf8ByteSize

/-- One label of the anchored pattern `[a-z0-9]([-a-z0-9]*[a-z0-9])?`. -/
def dns1123Label (cs : List Char) : Bool :=
  let lowerNum := fun (c : Char) => c.isLower || c.isDigit
  match cs.head?, cs.getLast? with
  | some a, some z => lowerNum a && lowerNum z && cs.all (fun c => lowerNum c || c == '-')
  | _, _ => false

/-- The check `len(IsDNS1123Subdomain(value)) == 0`: at most 253 bytes, and
dot-separated `dns1123Label`s. -/
def IsDNS1123Subdomain (cs : List Char) : Bool :=
  decide (byteLen cs ≤ 253) && (splitAt '.' cs).all dns1123Label

/-- The check `len(IsQualifiedName(value)) == 0`: an optional DNS subdomain
prefix and a slash, then a name part of 1 to 63 bytes matching
`qualifiedNameRegexp`. -/
def IsQualifiedName (value : String) : Bool :=
  match splitAt '/' value.toList with
  | [name] =>
    !name.isEmpty && decide (byteLen name ≤ 63) && qualifiedNameRegexp name
  | [pfx, name] =>
    !pfx.isEmpty && IsDNS1123Subdomain pfx &&
      !name.isEmpty && decide (byteLen name ≤ 63) && qualifiedNameRegexp name
  | _ => false

/-- The check `len(IsValidLabelValue(value)) == 0`: at most 63 bytes, and empty
or matching `qualifiedNameRegexp`. -/
def IsValidLabelValue (value : String) : Bool :=
  decide (value.utf8ByteSize ≤ 63) &&
    (value.toList.isEmpty || qualifiedNameRegexp value.toList)

end validation

namespace labels

/-- The type `labels.Requirement`. -/
structure Requirement where
  key : String
  operator : selection.Operator
  strValues : List String
  deriving DecidableEq, Repr

/-- The function `labels.NewRequirement`: the key is validated first, then the
number (and for `gt`, `lt` the shape) of the values for the operator, then each
value. The texts that follow the offending key or value in the two validation
errors are left out. -/
def NewRequirement (key : String) (op : selection.Operator) (vals : List String) :
    Except GoError Requirement :=
  if !validation.IsQualifiedName key then
    .error ("invalid label key " ++ key.quote)
  else
    let opErr : Option GoError :=
      if op = selection.In ∨ op = selection.NotIn then
        if vals.length = 0 then
          some "for 'in', 'notin' operators, values set can't be empty"
        else none
      else if op = selection.Equals ∨ op = selection.DoubleEquals ∨ op = selection.NotEquals then
        if vals.length ≠ 1 then
          some "exact-match compatibility requires one single value"
        else none
      else if op = selection.Exists ∨ op = selection.DoesNotExist then
        if vals.length ≠ 0 then
          some "values set must be empty for exists and does not exist"
        else none
      else if op = selection.GreaterThan ∨ op = selection.LessThan then
        if vals.length ≠ 1 then
          some "for 'Gt', 'Lt' operators, exactly one value is required"
        else if vals.any (fun v => (ParseInt v).isNone) then
          some "for 'Gt', 'Lt' operators, the value must be an integer"
        else none
      else
        some ("operator '" ++ op ++ "' is not recognized")
    match opErr with
    | some err => .error err
    | none =>
      match vals.find? (fun v => !validation.IsValidLabelValue v) with
      | some v => .error ("invalid label value: " ++ v.quote)
      | none => .ok { key := key, operator := op, strValues := vals }

/-- The method `Requirement.hasValue`. -/
def Requirement.hasValue (r : Requirement) (value : String) : Bool :=
  r.strValues.any (fun v => v == value)

/-- The method `Requirement.Matches` on a label set. -/
def Requirement.Matches (r : Requirement) (ls : Option StringMap) : Bool :=
  if r.operator = selection.In ∨ r.operator = selection.Equals ∨
      r.operator = selection.DoubleEquals then
    if !mapHas ls r.key then false else r.hasValue (mapGet ls r.key)
  else if r.operator = selection.NotIn ∨ r.operator = selection.NotEquals then
    if !mapHas ls r.key then true else !r.hasValue (mapGet ls r.key)
  else if r.operator = selection.Exists then mapHas ls r.key
  else if r.operator = selection.DoesNotExist then !mapHas ls r.key
  else if r.operator = selection.GreaterThan ∨ r.operator = selection.LessThan then
    if !mapHas ls r.key then false
    else
      match ParseInt (mapGet ls r.key) with
      | none => false
      | some lsValue =>
        match r.strValues with
        | [v] =>
          match ParseInt v with
          | none => false
          | some rValue =>
            (r.operator = selection.GreaterThan && decide (lsValue > rValue)) ||
              (r.operator = selection.LessThan && decide (lsValue < rValue))
        | _ => false
  else false

/-- The type `labels.Selector` as built by `NewSelector` and `Add`: a list of
requirements. -/
abbrev Selector := List Requirement

/-- The function `labels.NewSelector`: no requirement. -/
def NewSelector : Selector := []

/-- The method `Selector.Add` for one requirement. The library also reorders
the requirements by key, which `Selector.Matches`, a conjunction, does not
observe. -/
def Selector.Add (sel : Selector) (r : Requirement) : Selector := sel ++ [r]

/-- The method `Selector.Matches`: every requirement matches. -/
def Selector.Matches (sel : Selector) (ls : Option StringMap) : Bool :=
  sel.all (fun r => r.Matches ls)

end labels

/-! ## API objects read by the node admitter -/

namespace corev1

/-- The type `corev1.NodeSelectorOperator`, a Go string type. -/
abbrev NodeSelectorOperator := String

def NodeSelectorOpIn : NodeSelectorOperator := "In"
def NodeSelectorOpNotIn : NodeSelectorOperator := "NotIn"
def NodeSelectorOpExists : NodeSelectorOperator := "Exists"
def NodeSelectorOpDoesNotExist : NodeSelectorOperator := "DoesNotExist"
def NodeSelectorOpGt : NodeSelectorOperator := "Gt"
def NodeSelectorOpLt : NodeSelectorOperator := "Lt"

/-- The constant `corev1.NamespaceAll`. -/
def NamespaceAll : String := ""

/-- The type `corev1.NodeSelectorRequirement`. -/
structure NodeSelectorRequirement where
  Key : String
  Operator : NodeSelectorOperator
  Values : List String
  deriving DecidableEq, Repr

/-- The type `corev1.NodeSelectorTerm`. -/
structure NodeSelectorTerm where
  MatchExpressions : List NodeSelectorRequirement
  MatchFields : List NodeSelectorRequirement := []
  deriving DecidableEq, Repr

/-- The type `corev1.NodeSelector`. -/
structure NodeSelector where
  NodeSelectorTerms : List NodeSelectorTerm
  deriving DecidableEq, Repr

/-- The type `corev1.NodeAffinity`; the preferred terms are not read. -/
structure NodeAffinity where
  RequiredDuringSchedulingIgnoredDuringExecution : Option NodeSelector
  deriving DecidableEq, Repr

/-- The type `corev1.Affinity`; pod affinity is not read. -/
structure Affinity where
  NodeAffinity : Option corev1.NodeAffinity
  deriving DecidableEq, Repr

/-- The part of `corev1.Node` the admitter reads: `ObjectMeta.Name` and
`ObjectMeta.Labels`. -/
structure Node where
  Name : String
  Labels : Option StringMap
  deriving DecidableEq, Repr

/-- The method `Node.GetLabels`. -/
def Node.GetLabels (n : Node) : Option StringMap := n.Labels

/-- The part of `corev1.Pod` that identifies it. -/
structure Pod where
  Name : String
  Namespace : String
  deriving DecidableEq, Repr

end corev1

namespace v1

/-- The type `v1.NodePlacement`; tolerations are not read. -/
structure NodePlacement where
  NodeSelector : Option StringMap
  Affinity : Option corev1.Affinity
  deriving DecidableEq, Repr

/-- The type `v1.ComponentConfig`. -/
structure ComponentConfig where
  NodePlacement : Option v1.NodePlacement
  deriving DecidableEq, Repr

/-- The type `v1.KubeVirtSpec`: the workloads placement. -/
structure KubeVirtSpec where
  Workloads : Option ComponentConfig
  deriving DecidableEq, Repr

/-- The type `v1.KubeVirt`: `ObjectMeta.Generation` and the spec. -/
structure KubeVirt where
  Generation : Int
  Spec : KubeVirtSpec
  deriving DecidableEq, Repr

/-- The method `KubeVirt.GetGeneration`. -/
def KubeVirt.GetGeneration (kv : KubeVirt) : Int := kv.Generation

end v1

namespace metav1

/-- The fields of `metav1.ListOptions` the admitter sets. -/
structure ListOptions where
  FieldSelector : String := ""
  LabelSelector : String := ""
  deriving DecidableEq, Repr

/-- The type `metav1.GroupVersionResource`. -/
structure GroupVersionResource where
  Group : String
  Version : String
  Resource : String
  deriving DecidableEq, Repr

end metav1

namespace kubecli

/-- The two read queries of `kubecli.KubevirtClient` the admitter issues, each
as the answer the cluster gives: `CoreV1().Pods(namespace).List(opts)` and
`KubeVirt(namespace).List(opts)`. -/
structure KubevirtClient where
  PodsList : String → metav1.ListOptions → Except GoError (List corev1.Pod)
  KubeVirtList : String → metav1.ListOptions → Except GoError (List v1.KubeVirt)

end kubecli

namespace v1beta1

/-- Modelled from the spec: the admission response of the transport contract
(its section 6, allowed: bool, message: string?); the Go type is
`v1beta1.AdmissionResponse`, whose `Result.Message` is the message. -/
structure AdmissionResponse where
  Allowed : Bool
  Message : Option String
  deriving DecidableEq, Repr

/-- The type `runtime.RawExtension` of a request payload. The raw bytes are
represented by what the two decoders return on them: `webhookutils.ValidateSchema`
for the node kind (`none` for a nil response) and `json.Unmarshal` into a
`corev1.Node`. -/
structure RawExtension where
  ValidateSchema : Option AdmissionResponse
  Unmarshal : Except GoError corev1.Node

/-- The type `v1beta1.Operation`, a Go string type. -/
abbrev Operation := String

def Create : Operation := "CREATE"
def Update : Operation := "UPDATE"
def Delete : Operation := "DELETE"
def Connect : Operation := "CONNECT"

/-- The type `v1beta1.AdmissionRequest`. -/
structure AdmissionRequest where
  Resource : metav1.GroupVersionResource
  Operation : v1beta1.Operation
  Object : RawExtension
  OldObject : RawExtension

/-- The type `v1beta1.AdmissionReview`. -/
structure AdmissionReview where
  Request : AdmissionRequest

end v1beta1

namespace webhooks

/-- Modelled from the spec: the resource-kind check of the admission transport
(its section 6, "resource-kind match already validated"). The variable
`webhooks.NodeGroupVersionResource` and the function
`webhookutils.ValidateRequestResource` are declared elsewhere in the
repository and are taken as given. -/
structure Declared where
  NodeGroupVersionResource : metav1.GroupVersionResource
  ValidateRequestResource : metav1.GroupVersionResource → String → String → Bool

/-- Modelled from the spec: `webhookutils.ToAdmissionResponseError`, declared
elsewhere in the repository, answers not allowed with the message of the error
(its section 6, response allowed: bool, message: string?). -/
def ToAdmissionResponseError (err : GoError) : v1beta1.AdmissionResponse :=
  { Allowed := false, Message := some err }

/-- Modelled from the spec: `validating_webhook.NewPassingAdmissionResponse`,
declared elsewhere in the repository, answers allowed without a message. -/
def NewPassingAdmissionResponse : v1beta1.AdmissionResponse :=
  { Allowed := true, Message := none }

end webhooks

/-! ## The node admitter (`node-admitter.go`) -/

namespace admitters

open webhooks

/-- The type `NodeAdmitter`. -/
structure NodeAdmitter where
  Client : kubecli.KubevirtClient

/-- The function `operator`: the selection operator of a node selector
operator, the empty string for any other. -/
def operator (op : corev1.NodeSelectorOperator) : selection.Operator :=
  if op = corev1.NodeSelectorOpIn then selection.In
  else if op = corev1.NodeSelectorOpNotIn then selection.NotIn
  else if op = corev1.NodeSelectorOpExists then selection.Exists
  else if op = corev1.NodeSelectorOpDoesNotExist then selection.DoesNotExist
  else if op = corev1.NodeSelectorOpGt then selection.GreaterThan
  else if op = corev1.NodeSelectorOpLt then selection.LessThan
  else ""

/-- The first loop of `placementToSelector`, over the entries of
`placement.NodeSelector` that remain: an equality requirement for each, and the
empty selector with the error at the first requirement that is refused. -/
def addNodeSelector (selector : labels.Selector) :
    List (String × String) → labels.Selector × Option GoError
  | [] => (selector, none)
  | (k, v) :: rest =>
    match labels.NewRequirement k selection.Equals [v] with
    | .error err => (labels.NewSelector, some err)
    | .ok r => addNodeSelector (selector.Add r) rest

/-- The inner loop of `placementToSelector`, over the match expressions of one
term that remain. -/
def addMatchExpressions (selector : labels.Selector) :
    List corev1.NodeSelectorRequirement → labels.Selector × Option GoError
  | [] => (selector, none)
  | ex :: rest =>
    match labels.NewRequirement ex.Key (operator ex.Operator) ex.Values with
    | .error err => (labels.NewSelector, some err)
    | .ok r => addMatchExpressions (selector.Add r) rest

/-- The outer loop of `placementToSelector`, over the selector terms that
remain. -/
def addSelectorTerms (selector : labels.Selector) :
    List corev1.NodeSelectorTerm → labels.Selector × Option GoError
  | [] => (selector, none)
  | st :: rest =>
    match addMatchExpressions selector st.MatchExpressions with
    | (sel, none) => addSelectorTerms sel rest
    | (sel, some err) => (sel, some err)

/-- The selector terms `placementToSelector` loops over: those of the required
node affinity when affinity, node affinity and required selector are all set,
none otherwise. -/
def selectorterms (placement : v1.NodePlacement) : List corev1.NodeSelectorTerm :=
  match placement.Affinity with
  | none => []
  | some affinity =>
    match affinity.NodeAffinity with
    | none => []
    | some nodeAffinity =>
      match nodeAffinity.RequiredDuringSchedulingIgnoredDuringExecution with
      | none => []
      | some required => required.NodeSelectorTerms

/-- The function `placementToSelector`. The entries of the node selector map
are visited in the order of the association list. -/
def placementToSelector (placement : v1.NodePlacement) : labels.Selector × Option GoError :=
  match addNodeSelector labels.NewSelector (mapRange placement.NodeSelector) with
  | (sel, some err) => (sel, some err)
  | (selector, none) => addSelectorTerms selector (selectorterms placement)

/-- The function `getAdmissionReviewNode`. -/
def getAdmissionReviewNode (d : Declared) (ar : v1beta1.AdmissionReview) :
    Option corev1.Node × Option corev1.Node × Option GoError :=
  if !d.ValidateRequestResource ar.Request.Resource d.NodeGroupVersionResource.Group
      d.NodeGroupVersionResource.Resource then
    (none, none, some ("expect resource to be '\x7b" ++ d.NodeGroupVersionResource.Group ++ " " ++
      d.NodeGroupVersionResource.Version ++ " " ++ d.NodeGroupVersionResource.Resource ++ "\x7d'"))
  else
    match ar.Request.Object.Unmarshal with
    | .error err => (none, none, some err)
    | .ok newNode =>
      if ar.Request.Operation = v1beta1.Update then
        match ar.Request.OldObject.Unmarshal with
        | .error err => (none, none, some err)
        | .ok oldNode => (some newNode, some oldNode, none)
      else (some newNode, none, none)

/-- The pod list query of `isNodeRunningVM`: the virt-launcher pods of all
namespaces whose node name is `name`. -/
def NodeAdmitter.listLauncherPods (admitter : NodeAdmitter) (name : String) :
    Except GoError (List corev1.Pod) :=
  admitter.Client.PodsList corev1.NamespaceAll
    { FieldSelector := "spec.nodeName=" ++ name,
      LabelSelector := "kubevirt.io=virt-launcher" }

/-- The installation list query of `nodeWillStillRunVirtHandler`: the KubeVirt
objects of all namespaces. -/
def NodeAdmitter.listKubeVirts (admitter : NodeAdmitter) : Except GoError (List v1.KubeVirt) :=
  admitter.Client.KubeVirtList corev1.NamespaceAll {}

/-- The method `NodeAdmitter.isNodeRunningVM`. -/
def NodeAdmitter.isNodeRunningVM (admitter : NodeAdmitter) (name : String) :
    Bool × Option GoError :=
  match admitter.listLauncherPods name with
  | .error err => (false, some err)
  | .ok items => if items.length = 0 then (false, none) else (true, none)

/-- The method `NodeAdmitter.nodeWillStillRunVirtHandler`. Reading
`kvs.Items[0]` of an empty list is a run-time panic. -/
def NodeAdmitter.nodeWillStillRunVirtHandler (admitter : NodeAdmitter) (node : corev1.Node) :
    Exec (Bool × Option GoError) :=
  match admitter.listKubeVirts with
  | .error err => .returns (false, some err)
  | .ok items =>
    if items.length > 1 then
      .returns (false, some "you can not have more than one KubeVirt install")
    else
      match items.head? with
      | none => .panics "runtime error: index out of range [0] with length 0"
      | some kv =>
        match kv.Spec.Workloads with
        | none => .returns (true, none)
        | some workloads =>
          match workloads.NodePlacement with
          | none => .returns (true, none)
          | some placement =>
            match placementToSelector placement with
            | (_, some err) => .returns (false, some err)
            | (selector, none) => .returns (selector.Matches node.GetLabels, none)

/-- The method `NodeAdmitter.Admit`. -/
def NodeAdmitter.Admit (d : Declared) (admitter : NodeAdmitter) (ar : v1beta1.AdmissionReview) :
    Exec v1beta1.AdmissionResponse :=
  if !d.ValidateRequestResource ar.Request.Resource d.NodeGroupVersionResource.Group
      d.NodeGroupVersionResource.Resource then
    .returns (ToAdmissionResponseError
      ("expect resource to be '" ++ d.NodeGroupVersionResource.Resource ++ "'"))
  else
    match ar.Request.Object.ValidateSchema with
    | some resp => .returns resp
    | none =>
      match getAdmissionReviewNode d ar with
      | (_, _, some err) => .returns (ToAdmissionResponseError err)
      | (none, _, none) => .panics "runtime error: invalid memory address or nil pointer dereference"
      | (some newNode, oldNode, none) =>
        match oldNode with
        -- Event is not of type update
        | none => .returns NewPassingAdmissionResponse
        | some oldNode =>
          -- labels on the node did not change
          if DeepEqual newNode.Labels oldNode.Labels then
            .returns NewPassingAdmissionResponse
          else
            match admitter.isNodeRunningVM newNode.Name with
            | (_, some err) => .returns (ToAdmissionResponseError err)
            | (hasVM, none) =>
              -- no vms are running
              if !hasVM then .returns NewPassingAdmissionResponse
              else
                match admitter.nodeWillStillRunVirtHandler newNode with
                | .panics reason => .panics reason
                | .returns (_, some err) => .returns (ToAdmissionResponseError err)
                | .returns (matched, none) =>
                  if !matched then
                    .returns (ToAdmissionResponseError
                      "you must remove all vms from this node before changing the label")
                  else .returns NewPassingAdmissionResponse

/-- An Update request for the node resource whose new payload passes the
schema check and whose payloads decode to `newNode` and `oldNode`: the requests
that reach the label comparison of `Admit`. -/
def IsNodeUpdate (d : Declared) (ar : v1beta1.AdmissionReview)
    (newNode oldNode : corev1.Node) : Prop :=
  d.ValidateRequestResource ar.Request.Resource d.NodeGroupVersionResource.Group
      d.NodeGroupVersionResource.Resource = true ∧
    ar.Request.Object.ValidateSchema = none ∧
    ar.Request.Operation = v1beta1.Update ∧
    ar.Request.Object.Unmarshal = .ok newNode ∧
    ar.Request.OldObject.Unmarshal = .ok oldNode

/-- A placement that constrains nothing: no node selector entry and no
selector term. -/
def Unconstrained (placement : v1.NodePlacement) : Prop :=
  mapRange placement.NodeSelector = [] ∧ selectorterms placement = []

/-- The three shapes of an installation without placement constraint:
`Workloads` is nil, `Workloads.NodePlacement` is nil, or the placement is
`Unconstrained`. -/
def NoPlacementConstraint (kv : v1.KubeVirt) : Prop :=
  kv.Spec.Workloads = none ∨
    (∃ w, kv.Spec.Workloads = some w ∧ w.NodePlacement = none) ∨
    (∃ w p, kv.Spec.Workloads = some w ∧ w.NodePlacement = some p ∧ Unconstrained p)

/-- The two labels fields carry the same key/value pairs and are both absent
(nil maps) or both present (maps, whose keys are distinct). -/
def SameLabels (a b : Option StringMap) : Prop :=
  (a = none ∧ b = none) ∨
    ∃ x y, a = some x ∧ b = some y ∧ StringMap.WF x ∧ StringMap.WF y ∧
      ∀ k, x.lookup k = y.lookup k

end admitters

/-! ## RBAC objects, stores, client and expectations -/

namespace metav1

/-- The fields of `metav1.ObjectMeta` the reconciler reads or writes. -/
structure ObjectMeta where
  Name : String := ""
  GenerateName : String := ""
  Namespace : String := ""
  UID : String := ""
  Labels : Option StringMap := none
  Annotations : Option StringMap := none
  deriving DecidableEq, Repr

end metav1

namespace rbacv1

/-- The type `rbacv1.PolicyRule`. -/
structure PolicyRule where
  Verbs : List String
  APIGroups : List String
  Resources : List String
  ResourceNames : List String := []
  NonResourceURLs : List String := []
  deriving DecidableEq, Repr

/-- The type `rbacv1.Subject`. -/
structure Subject where
  Kind : String
  APIGroup : String := ""
  Name : String
  Namespace : String := ""
  deriving DecidableEq, Repr

/-- The type `rbacv1.RoleRef`. -/
structure RoleRef where
  APIGroup : String
  Kind : String
  Name : String
  deriving DecidableEq, Repr

/-- The type `rbacv1.ClusterRole`. -/
structure ClusterRole where
  ObjectMeta : metav1.ObjectMeta
  Rules : List PolicyRule
  deriving DecidableEq, Repr

/-- The type `rbacv1.ClusterRoleBinding`. -/
structure ClusterRoleBinding where
  ObjectMeta : metav1.ObjectMeta
  Subjects : List Subject
  RoleRef : rbacv1.RoleRef
  deriving DecidableEq, Repr

/-- The type `rbacv1.Role`. -/
structure Role where
  ObjectMeta : metav1.ObjectMeta
  Rules : List PolicyRule
  deriving DecidableEq, Repr

/-- The type `rbacv1.RoleBinding`. -/
structure RoleBinding where
  ObjectMeta : metav1.ObjectMeta
  Subjects : List Subject
  RoleRef : rbacv1.RoleRef
  deriving DecidableEq, Repr

end rbacv1

namespace cache

/-- A value of type `interface{}` as found in a store: an object of one of the
four RBAC kinds. A type assertion to a kind succeeds on that constructor. -/
inductive Object where
  | ClusterRole (o : rbacv1.ClusterRole)
  | ClusterRoleBinding (o : rbacv1.ClusterRoleBinding)
  | Role (o : rbacv1.Role)
  | RoleBinding (o : rbacv1.RoleBinding)
  deriving DecidableEq, Repr

/-- The object metadata of a stored value. -/
def Object.meta : Object → metav1.ObjectMeta
  | .ClusterRole o => o.ObjectMeta
  | .ClusterRoleBinding o => o.ObjectMeta
  | .Role o => o.ObjectMeta
  | .RoleBinding o => o.ObjectMeta

/-- The function `cache.MetaNamespaceKeyFunc`, the key function of the stores:
`namespace/name`, or `name` alone when the namespace is empty. -/
def MetaNamespaceKeyFunc (obj : Object) : String :=
  if obj.meta.Namespace.utf8ByteSize > 0 then obj.meta.Namespace ++ "/" ++ obj.meta.Name
  else obj.meta.Name

/-- The type `cache.Store`: the stored values, in the order `List` returns
them. -/
abbrev Store := List Object

/-- The method `Store.List`. -/
def Store.List (s : Store) : List Object := s

/-- The method `Store.Get`: the value stored under the key of `obj`, `none`
when `exists` is false. -/
def Store.Get (s : Store) (obj : Object) : Option Object :=
  s.find? (fun o => MetaNamespaceKeyFunc o == MetaNamespaceKeyFunc obj)

end cache

namespace util

/-- The fields of `util.Stores` the RBAC reconciler reads. -/
structure Stores where
  ClusterRoleCache : cache.Store
  ClusterRoleBindingCache : cache.Store
  RoleCache : cache.Store
  RoleBindingCache : cache.Store
  ServiceMonitorEnabled : Bool
  deriving DecidableEq, Repr

/-- Modelled from the spec: the ExpectationCounter of its section 3, the pending
adds and deletes of one owner for one resource kind. The Go type is declared
elsewhere in the repository. -/
structure ExpectationCounter where
  adds : Int
  deletes : Int
  deriving DecidableEq, Repr

/-- Modelled from the spec: the expectation tracker of one resource kind, a
counter for every owner key (its section 3: keyed by owner key and resource
kind). -/
abbrev ControllerExpectations := String → ExpectationCounter

/-- Modelled from the spec: `Raise(owner, kind, adds, deletes)` of its section
4.3 adds to the counts of the owner. The Go method `RaiseExpectations` is
declared elsewhere in the repository. -/
def RaiseExpectations (e : ControllerExpectations) (controllerKey : String) (add del : Int) :
    ControllerExpectations :=
  fun k =>
    if k = controllerKey then { adds := (e k).adds + add, deletes := (e k).deletes + del }
    else e k

/-- Modelled from the spec: `Lower(owner, kind, adds, deletes)` of its section
4.3 takes from the counts of the owner. The Go method `LowerExpectations` is
declared elsewhere in the repository. -/
def LowerExpectations (e : ControllerExpectations) (controllerKey : String) (add del : Int) :
    ControllerExpectations :=
  fun k =>
    if k = controllerKey then { adds := (e k).adds - add, deletes := (e k).deletes - del }
    else e k

/-- The fields of `util.Expectations` for the four RBAC kinds. -/
structure Expectations where
  ClusterRole : ControllerExpectations
  ClusterRoleBinding : ControllerExpectations
  Role : ControllerExpectations
  RoleBinding : ControllerExpectations

end util

namespace kubecli

/-- A mutating call on the `RbacV1()` client, with the namespace for the
namespaced kinds. -/
inductive Call where
  | ClusterRolesCreate (o : rbacv1.ClusterRole)
  | ClusterRolesUpdate (o : rbacv1.ClusterRole)
  | ClusterRoleBindingsCreate (o : rbacv1.ClusterRoleBinding)
  | ClusterRoleBindingsUpdate (o : rbacv1.ClusterRoleBinding)
  | RolesCreate (namespace_ : String) (o : rbacv1.Role)
  | RolesUpdate (namespace_ : String) (o : rbacv1.Role)
  | RoleBindingsCreate (namespace_ : String) (o : rbacv1.RoleBinding)
  | RoleBindingsUpdate (namespace_ : String) (o : rbacv1.RoleBinding)
  deriving DecidableEq, Repr

/-- Is the call a `Create`. -/
def Call.isCreate : Call → Bool
  | .ClusterRolesCreate _ => true
  | .ClusterRoleBindingsCreate _ => true
  | .RolesCreate _ _ => true
  | .RoleBindingsCreate _ _ => true
  | _ => false

/-- Is the call an `Update`. -/
def Call.isUpdate (c : Call) : Bool := !c.isCreate

/-- The clientset of the reconciler: how the cluster answers a mutating call
given the calls issued before it (`none` for a nil error; the returned object is
discarded by every caller), and the calls issued so far, oldest first. -/
structure Clientset where
  respond : List Call → Call → Option GoError
  calls : List Call

/-- Issue one mutating call: it is recorded, and the cluster answers. -/
def Clientset.issue (c : Clientset) (call : Call) : Clientset × Option GoError :=
  ({ c with calls := c.calls ++ [call] }, c.respond c.calls call)

end kubecli

/-! ## The RBAC reconciler (`rolebasedaccesscontrol.go`) -/

namespace installstrategy

open cache util kubecli

/-- The fields of `Reconciler` the RBAC functions use. The expectations and the
clientset are the mutable part. -/
structure Reconciler where
  kv : v1.KubeVirt
  kvKey : String
  stores : Stores
  clientset : Clientset
  expectations : Expectations

/-- Constants and functions the RBAC functions use that are declared elsewhere
in the repository, taken as given: the annotation keys of package `v1`, the
reserved name `rbac.MONITOR_SERVICEACCOUNT_NAME`, the four needs-backup
predicates, `injectOperatorMetadata` (as the metadata it leaves behind) and
`objectMatchesVersion`; and the `%+v` renderings used in error texts. -/
structure Declared where
  InstallStrategyVersionAnnotation : String
  InstallStrategyRegistryAnnotation : String
  InstallStrategyIdentifierAnnotation : String
  EphemeralBackupObject : String
  MONITOR_SERVICEACCOUNT_NAME : String
  needsClusterRoleBackup : v1.KubeVirt → Stores → rbacv1.ClusterRole → Bool
  needsClusterRoleBindingBackup : v1.KubeVirt → Stores → rbacv1.ClusterRoleBinding → Bool
  needsRoleBackup : v1.KubeVirt → Stores → rbacv1.Role → Bool
  needsRoleBindingBackup : v1.KubeVirt → Stores → rbacv1.RoleBinding → Bool
  injectOperatorMetadata :
    v1.KubeVirt → metav1.ObjectMeta → String → String → String → Bool → metav1.ObjectMeta
  objectMatchesVersion : metav1.ObjectMeta → String → String → String → Int → Bool
  formatObject : Object → String
  formatReconciler : Reconciler → String

/-- Go `m[k] = v` on a non-nil map. -/
def mapSet (m : StringMap) (k v : String) : StringMap :=
  if (m.lookup k).isSome then m.map (fun kv => if kv.1 = k then (k, v) else kv)
  else m ++ [(k, v)]

/-- Go `meta.Annotations[k] = v`: a run-time panic on a nil map. -/
def setAnnotation (m : metav1.ObjectMeta) (k v : String) : Exec metav1.ObjectMeta :=
  match m.Annotations with
  | none => .panics "assignment to entry in nil map"
  | some ann => .returns { m with Annotations := some (mapSet ann k v) }

/-- The result of a function returning `error` that mutates the reconciler. -/
abbrev Step := Exec (Reconciler × Option GoError)

/-- Issue a call through `r.clientset`. -/
def Reconciler.issue (r : Reconciler) (call : Call) : Reconciler × Option GoError :=
  ({ r with clientset := (r.clientset.issue call).1 }, (r.clientset.issue call).2)

/-- The metadata of a backup object: a fresh `ObjectMeta` with only
`GenerateName` set to the name of the cached object, stamped by
`injectOperatorMetadata` with the version, registry and identifier given, and
annotated with the UID of the cached object. -/
def backupMeta (d : Declared) (r : Reconciler) (cached : metav1.ObjectMeta)
    (imageTag imageRegistry id : String) : Exec metav1.ObjectMeta :=
  setAnnotation
    (d.injectOperatorMetadata r.kv { GenerateName := cached.Name } imageTag imageRegistry id true)
    d.EphemeralBackupObject cached.UID

/-- The three annotation reads that open a backup: `none` when one of the
version, registry and identifier annotations is missing (the loop continues). -/
def backupAnnotations (d : Declared) (cached : metav1.ObjectMeta) :
    Option (String × String × String) :=
  if !mapHas cached.Annotations d.InstallStrategyVersionAnnotation then none
  else if !mapHas cached.Annotations d.InstallStrategyRegistryAnnotation then none
  else if !mapHas cached.Annotations d.InstallStrategyIdentifierAnnotation then none
  else some (mapGet cached.Annotations d.InstallStrategyVersionAnnotation,
    mapGet cached.Annotations d.InstallStrategyRegistryAnnotation,
    mapGet cached.Annotations d.InstallStrategyIdentifierAnnotation)

/-- The first loop of `backupRbac`, over the cluster roles that remain. -/
def backupClusterRoles (d : Declared) (r : Reconciler) : List Object → Step
  | [] => .returns (r, none)
  | obj :: rest =>
    match obj with
    | .ClusterRole cachedCr =>
      if !d.needsClusterRoleBackup r.kv r.stores cachedCr then backupClusterRoles d r rest
      else
        match backupAnnotations d cachedCr.ObjectMeta with
        | none => backupClusterRoles d r rest
        | some (imageTag, imageRegistry, id) =>
          match backupMeta d r cachedCr.ObjectMeta imageTag imageRegistry id with
          | .panics reason => .panics reason
          | .returns m =>
            let cr : rbacv1.ClusterRole := { cachedCr with ObjectMeta := m }
            -- Create backup
            let r1 : Reconciler :=
              { r with expectations.ClusterRole :=
                  RaiseExpectations r.expectations.ClusterRole r.kvKey 1 0 }
            match r1.issue (.ClusterRolesCreate cr) with
            | (r2, some err) =>
              .returns ({ r2 with expectations.ClusterRole :=
                            LowerExpectations r2.expectations.ClusterRole r2.kvKey 1 0 },
                some ("unable to create backup clusterrole " ++
                  d.formatObject (.ClusterRole cr) ++ ": " ++ err))
            | (r2, none) => backupClusterRoles d r2 rest
    | _ => backupClusterRoles d r rest

/-- The second loop of `backupRbac`, over the cluster role bindings that
remain. -/
def backupClusterRoleBindings (d : Declared) (r : Reconciler) : List Object → Step
  | [] => .returns (r, none)
  | obj :: rest =>
    match obj with
    | .ClusterRoleBinding cachedCrb =>
      if !d.needsClusterRoleBindingBackup r.kv r.stores cachedCrb then
        backupClusterRoleBindings d r rest
      else
        match backupAnnotations d cachedCrb.ObjectMeta with
        | none => backupClusterRoleBindings d r rest
        | some (imageTag, imageRegistry, id) =>
          match backupMeta d r cachedCrb.ObjectMeta imageTag imageRegistry id with
          | .panics reason => .panics reason
          | .returns m =>
            let crb : rbacv1.ClusterRoleBinding := { cachedCrb with ObjectMeta := m }
            -- Create backup
            let r1 : Reconciler :=
              { r with expectations.ClusterRoleBinding :=
                  RaiseExpectations r.expectations.ClusterRoleBinding r.kvKey 1 0 }
            match r1.issue (.ClusterRoleBindingsCreate crb) with
            | (r2, some err) =>
              .returns ({ r2 with expectations.ClusterRoleBinding :=
                            LowerExpectations r2.expectations.ClusterRoleBinding r2.kvKey 1 0 },
                some ("unable to create backup clusterrolebinding " ++
                  d.formatObject (.ClusterRoleBinding crb) ++ ": " ++ err))
            | (r2, none) => backupClusterRoleBindings d r2 rest
    | _ => backupClusterRoleBindings d r rest

/-- The third loop of `backupRbac`, over the roles that remain. The error text
renders the reconciler. -/
def backupRoles (d : Declared) (r : Reconciler) : List Object → Step
  | [] => .returns (r, none)
  | obj :: rest =>
    match obj with
    | .Role cachedCr =>
      if !d.needsRoleBackup r.kv r.stores cachedCr then backupRoles d r rest
      else
        match backupAnnotations d cachedCr.ObjectMeta with
        | none => backupRoles d r rest
        | some (imageTag, imageRegistry, id) =>
          match backupMeta d r cachedCr.ObjectMeta imageTag imageRegistry id with
          | .panics reason => .panics reason
          | .returns m =>
            let cr : rbacv1.Role := { cachedCr with ObjectMeta := m }
            -- Create backup
            let r1 : Reconciler :=
              { r with expectations.Role := RaiseExpectations r.expectations.Role r.kvKey 1 0 }
            match r1.issue (.RolesCreate cachedCr.ObjectMeta.Namespace cr) with
            | (r2, some err) =>
              let r3 : Reconciler :=
                { r2 with expectations.Role :=
                    LowerExpectations r2.expectations.Role r2.kvKey 1 0 }
              .returns (r3,
                some ("unable to create backup role " ++ d.formatReconciler r3 ++ ": " ++ err))
            | (r2, none) => backupRoles d r2 rest
    | _ => backupRoles d r rest

/-- The fourth loop of `backupRbac`, over the role bindings that remain. -/
def backupRoleBindings (d : Declared) (r : Reconciler) : List Object → Step
  | [] => .returns (r, none)
  | obj :: rest =>
    match obj with
    | .RoleBinding cachedRb =>
      if !d.needsRoleBindingBackup r.kv r.stores cachedRb then backupRoleBindings d r rest
      else
        match backupAnnotations d cachedRb.ObjectMeta with
        | none => backupRoleBindings d r rest
        | some (imageTag, imageRegistry, id) =>
          match backupMeta d r cachedRb.ObjectMeta imageTag imageRegistry id with
          | .panics reason => .panics reason
          | .returns m =>
            let rb : rbacv1.RoleBinding := { cachedRb with ObjectMeta := m }
            -- Create backup
            let r1 : Reconciler :=
              { r with expectations.RoleBinding :=
                  RaiseExpectations r.expectations.RoleBinding r.kvKey 1 0 }
            match r1.issue (.RoleBindingsCreate cachedRb.ObjectMeta.Namespace rb) with
            | (r2, some err) =>
              .returns ({ r2 with expectations.RoleBinding :=
                            LowerExpectations r2.expectations.RoleBinding r2.kvKey 1 0 },
                some ("unable to create backup rolebinding " ++
                  d.formatObject (.RoleBinding rb) ++ ": " ++ err))
            | (r2, none) => backupRoleBindings d r2 rest
    | _ => backupRoleBindings d r rest

/-- Go sequencing of two statements that may return an error: the second runs
only when the first neither panics nor returns. -/
def Step.andThen (s : Step) (next : Reconciler → Step) : Step :=
  match s with
  | .panics reason => .panics reason
  | .returns (r, some err) => .returns (r, some err)
  | .returns (r, none) => next r

/-- The method `Reconciler.backupRbac`: the four loops in turn, each over the
list its store returns. -/
def Reconciler.backupRbac (d : Declared) (r : Reconciler) : Step :=
  (backupClusterRoles d r r.stores.ClusterRoleCache.List).andThen fun r =>
  (backupClusterRoleBindings d r r.stores.ClusterRoleBindingCache.List).andThen fun r =>
  (backupRoles d r r.stores.RoleCache.List).andThen fun r =>
  backupRoleBindings d r r.stores.RoleBindingCache.List

/-- The method `Reconciler.createOrUpdateClusterRole`. -/
def Reconciler.createOrUpdateClusterRole (d : Declared) (r : Reconciler)
    (cr : rbacv1.ClusterRole) (imageTag imageRegistry id : String) : Step :=
  let stamped : rbacv1.ClusterRole :=
    { cr with ObjectMeta :=
        d.injectOperatorMetadata r.kv cr.ObjectMeta imageTag imageRegistry id true }
  match r.stores.ClusterRoleCache.Get (.ClusterRole cr) with
  | none =>
    -- Create non existent
    let r1 : Reconciler :=
      { r with expectations.ClusterRole :=
          RaiseExpectations r.expectations.ClusterRole r.kvKey 1 0 }
    match r1.issue (.ClusterRolesCreate stamped) with
    | (r2, some err) =>
      .returns ({ r2 with expectations.ClusterRole :=
                    LowerExpectations r2.expectations.ClusterRole r2.kvKey 1 0 },
        some ("unable to create clusterrole " ++
          d.formatObject (.ClusterRole stamped) ++ ": " ++ err))
    | (r2, none) => .returns (r2, none)
  | some (.ClusterRole cachedCr) =>
    if !d.objectMatchesVersion cachedCr.ObjectMeta imageTag imageRegistry id
        r.kv.GetGeneration then
      -- Update existing
      match r.issue (.ClusterRolesUpdate stamped) with
      | (r2, some err) =>
        .returns (r2, some ("unable to update clusterrole " ++
          d.formatObject (.ClusterRole stamped) ++ ": " ++ err))
      | (r2, none) => .returns (r2, none)
    else .returns (r, none)
  | some _ => .panics "interface conversion: interface is not *v1.ClusterRole"

/-- The method `Reconciler.createOrUpdateRoleBinding`. -/
def Reconciler.createOrUpdateRoleBinding (d : Declared) (r : Reconciler)
    (rb : rbacv1.RoleBinding) (imageTag imageRegistry id namespace_ : String) : Step :=
  if !r.stores.ServiceMonitorEnabled && rb.ObjectMeta.Name == d.MONITOR_SERVICEACCOUNT_NAME then
    .returns (r, none)
  else
    let stamped : rbacv1.RoleBinding :=
      { rb with ObjectMeta :=
          d.injectOperatorMetadata r.kv rb.ObjectMeta imageTag imageRegistry id true }
    match r.stores.RoleBindingCache.Get (.RoleBinding rb) with
    | none =>
      -- Create non existent
      let r1 : Reconciler :=
        { r with expectations.RoleBinding :=
            RaiseExpectations r.expectations.RoleBinding r.kvKey 1 0 }
      match r1.issue (.RoleBindingsCreate namespace_ stamped) with
      | (r2, some err) =>
        .returns ({ r2 with expectations.RoleBinding :=
                      LowerExpectations r2.expectations.RoleBinding r2.kvKey 1 0 },
          some ("unable to create rolebinding " ++
            d.formatObject (.RoleBinding stamped) ++ ": " ++ err))
      | (r2, none) => .returns (r2, none)
    | some (.RoleBinding cachedRb) =>
      if !d.objectMatchesVersion cachedRb.ObjectMeta imageTag imageRegistry id
          r.kv.GetGeneration then
        -- Update existing
        match r.issue (.RoleBindingsUpdate namespace_ stamped) with
        | (r2, some err) =>
          .returns (r2, some ("unable to update rolebinding " ++
            d.formatObject (.RoleBinding stamped) ++ ": " ++ err))
        | (r2, none) => .returns (r2, none)
      else .returns (r, none)
    | some _ => .panics "interface conversion: interface is not *v1.RoleBinding"

/-- The method `Reconciler.createOrUpdateRole`. The error texts render the
reconciler. -/
def Reconciler.createOrUpdateRole (d : Declared) (r : Reconciler)
    (role : rbacv1.Role) (imageTag imageRegistry id namespace_ : String) : Step :=
  if !r.stores.ServiceMonitorEnabled && role.ObjectMeta.Name == d.MONITOR_SERVICEACCOUNT_NAME then
    .returns (r, none)
  else
    let stamped : rbacv1.Role :=
      { role with ObjectMeta :=
          d.injectOperatorMetadata r.kv role.ObjectMeta imageTag imageRegistry id true }
    match r.stores.RoleCache.Get (.Role role) with
    | none =>
      -- Create non existent
      let r1 : Reconciler :=
        { r with expectations.Role := RaiseExpectations r.expectations.Role r.kvKey 1 0 }
      match r1.issue (.RolesCreate namespace_ stamped) with
      | (r2, some err) =>
        let r3 : Reconciler :=
          { r2 with expectations.Role := LowerExpectations r2.expectations.Role r2.kvKey 1 0 }
        .returns (r3, some ("unable to create role " ++ d.formatReconciler r3 ++ ": " ++ err))
      | (r2, none) => .returns (r2, none)
    | some (.Role cachedR) =>
      if !d.objectMatchesVersion cachedR.ObjectMeta imageTag imageRegistry id
          r.kv.GetGeneration then
        -- Update existing
        match r.issue (.RolesUpdate namespace_ stamped) with
        | (r2, some err) =>
          .returns (r2, some ("unable to update role " ++ d.formatReconciler r2 ++ ": " ++ err))
        | (r2, none) => .returns (r2, none)
      else .returns (r, none)
    | some _ => .panics "interface conversion: interface is not *v1.Role"

/-- The method `Reconciler.createOrUpdateClusterRoleBinding`. -/
def Reconciler.createOrUpdateClusterRoleBinding (d : Declared) (r : Reconciler)
    (crb : rbacv1.ClusterRoleBinding) (imageTag imageRegistry id : String) : Step :=
  let stamped : rbacv1.ClusterRoleBinding :=
    { crb with ObjectMeta :=
        d.injectOperatorMetadata r.kv crb.ObjectMeta imageTag imageRegistry id true }
  match r.stores.ClusterRoleBindingCache.Get (.ClusterRoleBinding crb) with
  | none =>
    -- Create non existent
    let r1 : Reconciler :=
      { r with expectations.ClusterRoleBinding :=
          RaiseExpectations r.expectations.ClusterRoleBinding r.kvKey 1 0 }
    match r1.issue (.ClusterRoleBindingsCreate stamped) with
    | (r2, some err) =>
      .returns ({ r2 with expectations.ClusterRoleBinding :=
                    LowerExpectations r2.expectations.ClusterRoleBinding r2.kvKey 1 0 },
        some ("unable to create clusterrolebinding " ++
          d.formatObject (.ClusterRoleBinding stamped) ++ ": " ++ err))
    | (r2, none) => .returns (r2, none)
  | some (.ClusterRoleBinding cachedCrb) =>
    if !d.objectMatchesVersion cachedCrb.ObjectMeta imageTag imageRegistry id
        r.kv.GetGeneration then
      -- Update existing
      match r.issue (.ClusterRoleBindingsUpdate stamped) with
      | (r2, some err) =>
        .returns (r2, some ("unable to update clusterrolebinding " ++
          d.formatObject (.ClusterRoleBinding stamped) ++ ": " ++ err))
      | (r2, none) => .returns (r2, none)
    else .returns (r, none)
  | some _ => .panics "interface conversion: interface is not *v1.ClusterRoleBinding"

end installstrategy

/-! ## Worked inputs -/

namespace admitters

open webhooks

/-- The node resource, and a resource check that compares group and resource. -/
def testDeclared : Declared :=
  { NodeGroupVersionResource := { Group := "", Version := "v1", Resource := "nodes" },
    ValidateRequestResource := fun r g res => r.Group == g && r.Resource == res }

/-- The node of the test table: labels `foo: bar` and `workload: schedule`. -/
def testNode : corev1.Node :=
  { Name := "node01", Labels := some [("foo", "bar"), ("workload", "schedule")] }

/-- The node of the test table after the update `foo: updatedbar`. -/
def testNodeUpdated : corev1.Node :=
  { Name := "node01", Labels := some [("foo", "updatedbar"), ("workload", "schedule")] }

/-- A node without a labels field. -/
def nodeNilLabels : corev1.Node := { Name := "node01", Labels := none }

/-- A node whose labels field is the empty map. -/
def nodeEmptyLabels : corev1.Node := { Name := "node01", Labels := some [] }

/-- The Update review that carries `newNode` and `oldNode`. -/
def updateReview (newNode oldNode : corev1.Node) : v1beta1.AdmissionReview :=
  { Request :=
      { Resource := testDeclared.NodeGroupVersionResource,
        Operation := v1beta1.Update,
        Object := { ValidateSchema := none, Unmarshal := .ok newNode },
        OldObject := { ValidateSchema := none, Unmarshal := .ok oldNode } } }

/-- The virt-launcher pod of the test table. -/
def testPod : corev1.Pod := { Name := "testpod", Namespace := "ns" }

/-- An admitter whose two queries answer with the given lists. -/
def admitterWith (pods : List corev1.Pod) (kvs : List v1.KubeVirt) : NodeAdmitter :=
  { Client := { PodsList := fun _ _ => .ok pods, KubeVirtList := fun _ _ => .ok kvs } }

/-- An admitter whose two queries answer as given. -/
def admitterAnswering (pods : Except GoError (List corev1.Pod))
    (kvs : Except GoError (List v1.KubeVirt)) : NodeAdmitter :=
  { Client := { PodsList := fun _ _ => pods, KubeVirtList := fun _ _ => kvs } }

/-- An installation whose workloads carry the placement. -/
def kvWithPlacement (p : v1.NodePlacement) : v1.KubeVirt :=
  { Generation := 1, Spec := { Workloads := some { NodePlacement := some p } } }

/-- The placement with node selector `foo: bar`. -/
def placementFooBar : v1.NodePlacement :=
  { NodeSelector := some [("foo", "bar")], Affinity := none }

/-- The placement with node selector `workload: schedule`. -/
def placementWorkload : v1.NodePlacement :=
  { NodeSelector := some [("workload", "schedule")], Affinity := none }

/-- The placement with node selector `workload: schedule` and the affinity
expression `foo NotIn [updatedbar]`. -/
def placementNotIn : v1.NodePlacement :=
  { NodeSelector := some [("workload", "schedule")],
    Affinity := some
      { NodeAffinity := some
          { RequiredDuringSchedulingIgnoredDuringExecution := some
              { NodeSelectorTerms :=
                  [{ MatchExpressions :=
                       [{ Key := "foo", Operator := corev1.NodeSelectorOpNotIn,
                          Values := ["updatedbar"] }] }] } } } }

/-- The placement with an empty node selector and no affinity. -/
def placementEmpty : v1.NodePlacement := { NodeSelector := some [], Affinity := none }

/-- The text of the denial of a label change on a node that runs VMs. -/
def removeVMsMessage : String :=
  "you must remove all vms from this node before changing the label"

end admitters

namespace installstrategy

open cache util kubecli

/-- The mutating calls recorded when a run has ended (none for a panic). -/
def Step.calls : Step → List Call
  | .returns (r, _) => r.clientset.calls
  | .panics _ => []

/-- The error a run returned (none for a nil error or a panic). -/
def Step.err : Step → Option GoError
  | .returns (_, e) => e
  | .panics _ => none

/-- Did the run end by returning. -/
def Step.returned : Step → Bool
  | .returns _ => true
  | .panics _ => false

/-- Every call of `new`, issued in turn after the calls `base`, is accepted by
the cluster. -/
def AllAccepted (respond : List Call → Call → Option GoError) :
    List Call → List Call → Prop
  | _, [] => True
  | base, c :: cs => respond base c = none ∧ AllAccepted respond (base ++ [c]) cs

/-- What a run that finds the desired object absent does, as C8 states it: it
returns; it has issued exactly one call, the Create `call`, after the calls
issued before; if the cluster refuses the call the run returns a non-nil error
and every expectation counter is what it was; if the cluster accepts it the run
returns nil and the pending add count of the owner key for the kind is one
higher, its delete count unchanged. -/
def CreatedOnce (r : Reconciler) (kind : Expectations → ControllerExpectations)
    (call : Call) (out : Step) : Prop :=
  ∃ r' err, out = .returns (r', err) ∧
    call.isCreate = true ∧
    r'.clientset.calls = r.clientset.calls ++ [call] ∧
    (r.clientset.respond r.clientset.calls call ≠ none →
      err ≠ none ∧ r'.expectations = r.expectations) ∧
    (r.clientset.respond r.clientset.calls call = none →
      err = none ∧
      (kind r'.expectations r.kvKey).adds = (kind r.expectations r.kvKey).adds + 1 ∧
      (kind r'.expectations r.kvKey).deletes = (kind r.expectations r.kvKey).deletes)

/-- The four resource kinds of the RBAC reconciler. -/
inductive Kind where
  | ClusterRole
  | ClusterRoleBinding
  | Role
  | RoleBinding
  deriving DecidableEq, Repr

/-- The expectation tracker of a kind. -/
def expectationsOf (e : Expectations) : Kind → ControllerExpectations
  | .ClusterRole => e.ClusterRole
  | .ClusterRoleBinding => e.ClusterRoleBinding
  | .Role => e.Role
  | .RoleBinding => e.RoleBinding

/-- The kind a Create call creates an object of (none for an Update). -/
def createKind : Call → Option Kind
  | .ClusterRolesCreate _ => some .ClusterRole
  | .ClusterRoleBindingsCreate _ => some .ClusterRoleBinding
  | .RolesCreate _ _ => some .Role
  | .RoleBindingsCreate _ _ => some .RoleBinding
  | _ => none

/-- The number of Create calls of a kind among `calls`. -/
def createsOf (k : Kind) (calls : List Call) : Int :=
  ((calls.filter (fun c => createKind c == some k)).length : Int)

/-- The expectations of `r'` are those of `r` with one more pending add, for
the owner key of `r` and the kind created, for each Create of `accepted`, and
nothing else changed: no other owner, no delete count. -/
def Pending (r : Reconciler) (accepted : List Call) (r' : Reconciler) : Prop :=
  ∀ k : Kind,
    expectationsOf r'.expectations k =
      RaiseExpectations (expectationsOf r.expectations k) r.kvKey (createsOf k accepted) 0

/-- A fail-fast run from `r`: it returns; it has issued only Create calls, after
the calls issued before; and either it returns nil, the cluster accepted every
call and one add is pending for each of them, or the cluster refused its last
call and only that one, the returned error ends with the text of the refusal,
and one add is pending for each call before the last and none for the last. -/
def FailFast (r : Reconciler) (out : Step) : Prop :=
  ∃ r' e new, out = .returns (r', e) ∧
    r'.kvKey = r.kvKey ∧
    r'.clientset.respond = r.clientset.respond ∧
    r'.clientset.calls = r.clientset.calls ++ new ∧
    (∀ c ∈ new, c.isCreate = true) ∧
    ((e = none ∧ AllAccepted r.clientset.respond r.clientset.calls new ∧ Pending r new r') ∨
      ∃ pre c cerr text, new = pre ++ [c] ∧
        AllAccepted r.clientset.respond r.clientset.calls pre ∧
        r.clientset.respond (r.clientset.calls ++ pre) c = some cerr ∧
        e = some (text ++ ": " ++ cerr) ∧
        Pending r pre r')

/-- The pending add count a run has left for a kind and an owner key (zero
for a panic). -/
def Step.adds (k : Kind) (key : String) : Step → Int
  | .returns (r, _) => (expectationsOf r.expectations k key).adds
  | .panics _ => 0

/-- The function `injectOperatorMetadata` leaves an annotations map behind,
whatever it is given. -/
def InjectsAnnotations (d : Declared) : Prop :=
  ∀ kv m version registry id custom,
    (d.injectOperatorMetadata kv m version registry id custom).Annotations ≠ none

/-- Modelled from the spec: the annotations contract of its section 6; every
managed object carries version, registry and identifier, and the owner's
generation marker when customization metadata is asked for. Stands in for
`injectOperatorMetadata`, declared elsewhere in the repository. -/
def sampleInject (kv : v1.KubeVirt) (m : metav1.ObjectMeta)
    (version registry id : String) (custom : Bool) : metav1.ObjectMeta :=
  let a0 := mapRange m.Annotations
  let a1 := mapSet a0 "kubevirt.io/install-strategy-version" version
  let a2 := mapSet a1 "kubevirt.io/install-strategy-registry" registry
  let a3 := mapSet a2 "kubevirt.io/install-strategy-identifier" id
  { m with
    Annotations :=
      some (if custom then mapSet a3 "kubevirt.io/generation" (toString kv.Generation) else a3) }

/-- Modelled from the spec: its section 4.4 step 2; the version annotations of
the cached object equal the desired triple, and its generation marker that of
the owner. Stands in for `objectMatchesVersion`, declared elsewhere in the
repository. -/
def sampleMatches (m : metav1.ObjectMeta) (version registry id : String) (generation : Int) :
    Bool :=
  mapGet m.Annotations "kubevirt.io/install-strategy-version" == version &&
    mapGet m.Annotations "kubevirt.io/install-strategy-registry" == registry &&
    mapGet m.Annotations "kubevirt.io/install-strategy-identifier" == id &&
    mapGet m.Annotations "kubevirt.io/generation" == toString generation

/-- Modelled from the spec: its section 4.4 step 4 and section 6; an object
needs a backup when its version-tag annotations (version, registry and
identifier) are there and are for another combination than the desired one
(here `v0.2.0`, `registry.example`, `install-1`), and it is not itself an
ephemeral backup. Stands in for the four needs-backup predicates, declared
elsewhere in the repository. -/
def sampleNeedsBackup (m : metav1.ObjectMeta) : Bool :=
  mapHas m.Annotations "kubevirt.io/install-strategy-version" &&
    mapHas m.Annotations "kubevirt.io/install-strategy-registry" &&
    mapHas m.Annotations "kubevirt.io/install-strategy-identifier" &&
    !(mapGet m.Annotations "kubevirt.io/install-strategy-version" == "v0.2.0" &&
      mapGet m.Annotations "kubevirt.io/install-strategy-registry" == "registry.example" &&
      mapGet m.Annotations "kubevirt.io/install-strategy-identifier" == "install-1") &&
    !mapHas m.Annotations "kubevirt.io/ephemeral-backup-object"

/-- The declarations used in the worked inputs. -/
def sampleDeclared : Declared :=
  { InstallStrategyVersionAnnotation := "kubevirt.io/install-strategy-version",
    InstallStrategyRegistryAnnotation := "kubevirt.io/install-strategy-registry",
    InstallStrategyIdentifierAnnotation := "kubevirt.io/install-strategy-identifier",
    EphemeralBackupObject := "kubevirt.io/ephemeral-backup-object",
    MONITOR_SERVICEACCOUNT_NAME := "kubevirt-monitoring",
    needsClusterRoleBackup := fun _ _ o => sampleNeedsBackup o.ObjectMeta,
    needsClusterRoleBindingBackup := fun _ _ o => sampleNeedsBackup o.ObjectMeta,
    needsRoleBackup := fun _ _ o => sampleNeedsBackup o.ObjectMeta,
    needsRoleBindingBackup := fun _ _ o => sampleNeedsBackup o.ObjectMeta,
    injectOperatorMetadata := sampleInject,
    objectMatchesVersion := sampleMatches,
    formatObject := fun o => o.meta.GenerateName ++ o.meta.Name,
    formatReconciler := fun r => r.kvKey }

/-- The annotations of an object installed at version `version`. -/
def versionAnnotations (version : String) : Option StringMap :=
  some [("kubevirt.io/install-strategy-version", version),
        ("kubevirt.io/install-strategy-registry", "registry.example"),
        ("kubevirt.io/install-strategy-identifier", "install-1"),
        ("kubevirt.io/generation", "1")]

/-- One policy rule. -/
def sampleRule : rbacv1.PolicyRule :=
  { Verbs := ["get", "list"], APIGroups := ["kubevirt.io"], Resources := ["virtualmachines"] }

/-- A cluster role as the desired state gives it. -/
def desiredClusterRole : rbacv1.ClusterRole :=
  { ObjectMeta := { Name := "kubevirt-controller" }, Rules := [sampleRule] }

/-- A cluster role binding as the desired state gives it. -/
def desiredClusterRoleBinding : rbacv1.ClusterRoleBinding :=
  { ObjectMeta := { Name := "kubevirt-controller" },
    Subjects := [{ Kind := "ServiceAccount", Name := "kubevirt-controller",
                   Namespace := "kubevirt" }],
    RoleRef := { APIGroup := "rbac.authorization.k8s.io", Kind := "ClusterRole",
                 Name := "kubevirt-controller" } }

/-- A role as the desired state gives it. -/
def desiredRole : rbacv1.Role :=
  { ObjectMeta := { Name := "kubevirt-handler", Namespace := "kubevirt" },
    Rules := [sampleRule] }

/-- A role binding as the desired state gives it. -/
def desiredRoleBinding : rbacv1.RoleBinding :=
  { ObjectMeta := { Name := "kubevirt-handler", Namespace := "kubevirt" },
    Subjects := [{ Kind := "ServiceAccount", Name := "kubevirt-handler",
                   Namespace := "kubevirt" }],
    RoleRef := { APIGroup := "rbac.authorization.k8s.io", Kind := "Role",
                 Name := "kubevirt-handler" } }

/-- The cluster role `name` as cached, installed at version `version`. -/
def cachedClusterRole (name uid version : String) : rbacv1.ClusterRole :=
  { ObjectMeta := { Name := name, UID := uid, Annotations := versionAnnotations version },
    Rules := [sampleRule] }

/-- The role `name` in namespace `kubevirt` as cached, installed at version
`version`. -/
def cachedRole (name uid version : String) : rbacv1.Role :=
  { ObjectMeta := { Name := name, Namespace := "kubevirt", UID := uid,
                    Annotations := versionAnnotations version },
    Rules := [sampleRule] }

/-- The owner installation of the worked inputs. -/
def sampleKV : v1.KubeVirt := { Generation := 1, Spec := { Workloads := none } }

/-- A reconciler over the given stores, with no expectation pending and no call
issued, whose cluster answers as `respond` says. -/
def reconcilerOver (stores : Stores) (respond : List Call → Call → Option GoError) :
    Reconciler :=
  { kv := sampleKV,
    kvKey := "kubevirt/kubevirt",
    stores := stores,
    clientset := { respond := respond, calls := [] },
    expectations :=
      { ClusterRole := fun _ => { adds := 0, deletes := 0 },
        ClusterRoleBinding := fun _ => { adds := 0, deletes := 0 },
        Role := fun _ => { adds := 0, deletes := 0 },
        RoleBinding := fun _ => { adds := 0, deletes := 0 } } }

/-- Stores that hold nothing. -/
def emptyStores : Stores :=
  { ClusterRoleCache := [], ClusterRoleBindingCache := [], RoleCache := [],
    RoleBindingCache := [], ServiceMonitorEnabled := true }

/-- Stores that hold the four desired objects at the desired version. -/
def currentStores : Stores :=
  { ClusterRoleCache :=
      [.ClusterRole { desiredClusterRole with
          ObjectMeta := { Name := "kubevirt-controller",
                          Annotations := versionAnnotations "v0.2.0" } }],
    ClusterRoleBindingCache :=
      [.ClusterRoleBinding { desiredClusterRoleBinding with
          ObjectMeta := { Name := "kubevirt-controller",
                          Annotations := versionAnnotations "v0.2.0" } }],
    RoleCache :=
      [.Role { desiredRole with
          ObjectMeta := { Name := "kubevirt-handler", Namespace := "kubevirt",
                          Annotations := versionAnnotations "v0.2.0" } }],
    RoleBindingCache :=
      [.RoleBinding { desiredRoleBinding with
          ObjectMeta := { Name := "kubevirt-handler", Namespace := "kubevirt",
                          Annotations := versionAnnotations "v0.2.0" } }],
    ServiceMonitorEnabled := true }

/-- Stores with two stale cluster roles and one stale role, all installed at
version `v0.1.0`. -/
def staleStores : Stores :=
  { ClusterRoleCache :=
      [.ClusterRole (cachedClusterRole "kubevirt-controller" "uid-a" "v0.1.0"),
       .ClusterRole (cachedClusterRole "kubevirt-handler" "uid-b" "v0.1.0")],
    ClusterRoleBindingCache := [],
    RoleCache := [.Role (cachedRole "kubevirt-handler" "uid-c" "v0.1.0")],
    RoleBindingCache := [],
    ServiceMonitorEnabled := true }

/-- A cluster that refuses every call. -/
def refuseAll : List Call → Call → Option GoError := fun _ _ => some "create refused"

/-- A cluster that accepts the first `n` calls and refuses every later one. -/
def refuseAfter (n : Nat) : List Call → Call → Option GoError :=
  fun issued _ => if issued.length < n then none else some "create refused"

/-- A cluster that accepts every call. -/
def acceptAll : List Call → Call → Option GoError := fun _ _ => none

/-- The metadata `backupRbac` gives the backup of a cached object under
`sampleDeclared`. -/
def backupMetaOf (cached : metav1.ObjectMeta) : metav1.ObjectMeta :=
  { GenerateName := cached.Name,
    Annotations := some
      [("kubevirt.io/install-strategy-version",
          mapGet cached.Annotations "kubevirt.io/install-strategy-version"),
       ("kubevirt.io/install-strategy-registry",
          mapGet cached.Annotations "kubevirt.io/install-strategy-registry"),
       ("kubevirt.io/install-strategy-identifier",
          mapGet cached.Annotations "kubevirt.io/install-strategy-identifier"),
       ("kubevirt.io/generation", "1"),
       ("kubevirt.io/ephemeral-backup-object", cached.UID)] }

/-- The backup `backupRbac` builds for a cached cluster role under
`sampleDeclared`. -/
def backupOf (cached : rbacv1.ClusterRole) : rbacv1.ClusterRole :=
  { cached with ObjectMeta := backupMetaOf cached.ObjectMeta }

/-- The backup `backupRbac` builds for a cached role under `sampleDeclared`. -/
def backupOfRole (cached : rbacv1.Role) : rbacv1.Role :=
  { cached with ObjectMeta := backupMetaOf cached.ObjectMeta }

/-- The desired cluster role as `createOrUpdateClusterRole` stamps it under
`sampleDeclared` for version `v0.2.0`. -/
def stampedClusterRole : rbacv1.ClusterRole :=
  { desiredClusterRole with
    ObjectMeta :=
      sampleInject sampleKV desiredClusterRole.ObjectMeta "v0.2.0" "registry.example"
        "install-1" true }

/-- The desired role as `createOrUpdateRole` stamps it under `sampleDeclared`
for version `v0.2.0`. -/
def stampedRole : rbacv1.Role :=
  { desiredRole with
    ObjectMeta :=
      sampleInject sampleKV desiredRole.ObjectMeta "v0.2.0" "registry.example"
        "install-1" true }

end installstrategy

/-! ## Selector terms after the first -/

namespace admitters

/-- A node selector operator that is none of `In`, `NotIn`, `Exists`,
`DoesNotExist`, `Gt` and `Lt`. -/
def Unrecognized (op : corev1.NodeSelectorOperator) : Prop :=
  op ≠ corev1.NodeSelectorOpIn ∧ op ≠ corev1.NodeSelectorOpNotIn ∧
    op ≠ corev1.NodeSelectorOpExists ∧ op ≠ corev1.NodeSelectorOpDoesNotExist ∧
    op ≠ corev1.NodeSelectorOpGt ∧ op ≠ corev1.NodeSelectorOpLt

/-- A placement whose required node affinity has the given selector terms and
whose node selector is nil. -/
def placementWithTerms (terms : List corev1.NodeSelectorTerm) : v1.NodePlacement :=
  { NodeSelector := none,
    Affinity := some
      { NodeAffinity := some
          { RequiredDuringSchedulingIgnoredDuringExecution := some
              { NodeSelectorTerms := terms } } } }

/-- The selector term `workload Exists`. -/
def termWorkloadExists : corev1.NodeSelectorTerm :=
  { MatchExpressions :=
      [{ Key := "workload", Operator := corev1.NodeSelectorOpExists, Values := [] }] }

/-- A selector term whose only expression has the operator `Near`, which is
not a node selector operator. -/
def termFooNear : corev1.NodeSelectorTerm :=
  { MatchExpressions := [{ Key := "foo", Operator := "Near", Values := ["bar"] }] }

/-- Two selector terms: `workload Exists`, then the term with the operator
`Near`. -/
def placementBadSecondTerm : v1.NodePlacement :=
  placementWithTerms [termWorkloadExists, termFooNear]

end admitters

/-! ## Backups of stale objects -/

namespace installstrategy

open cache util kubecli

end installstrategy

namespace installstrategy

open cache util kubecli

end installstrategy

/-! ## Theorems: the node admitter -/

namespace admitters

open webhooks

/-- The verdict of `Admit` on an Update request that reaches the label
comparison is that of the part of `Admit` after decoding. -/
theorem Admit_update (d : Declared) (a : NodeAdmitter) (ar : v1beta1.AdmissionReview)
    (newNode oldNode : corev1.Node) (hreq : IsNodeUpdate d ar newNode oldNode) :
    a.Admit d ar =
      if DeepEqual newNode.Labels oldNode.Labels then .returns NewPassingAdmissionResponse
      else
        match a.isNodeRunningVM newNode.Name with
        | (_, some err) => .returns (ToAdmissionResponseError err)
        | (hasVM, none) =>
          if !hasVM then .returns NewPassingAdmissionResponse
          else
            match a.nodeWillStillRunVirtHandler newNode with
            | .panics reason => .panics reason
            | .returns (_, some err) => .returns (ToAdmissionResponseError err)
            | .returns (matched, none) =>
              if !matched then .returns (ToAdmissionResponseError removeVMsMessage)
              else .returns NewPassingAdmissionResponse := by
  obtain ⟨h1, h2, h3, h4, h5⟩ := hreq
  simp [NodeAdmitter.Admit, getAdmissionReviewNode, h1, h2, h3, h4, h5, removeVMsMessage]

/-- With at least one launcher pod listed, `isNodeRunningVM` answers true. -/
theorem isNodeRunningVM_of_pods (a : NodeAdmitter) (name : String) (pods : List corev1.Pod)
    (hpods : a.listLauncherPods name = .ok pods) (hne : pods ≠ []) :
    a.isNodeRunningVM name = (true, none) := by
  simp [NodeAdmitter.isNodeRunningVM, hpods, hne]

end admitters

namespace admitters

open webhooks

/-- The empty selector matches every label set. -/
theorem NewSelector_Matches (ls : Option StringMap) :
    labels.Selector.Matches labels.NewSelector ls = true := by
  simp [labels.Selector.Matches, labels.NewSelector]

/-- On an unconstrained placement `placementToSelector` succeeds with the empty
selector, which matches every label set. -/
theorem placementToSelector_unconstrained (placement : v1.NodePlacement)
    (h : Unconstrained placement) :
    placementToSelector placement = (labels.NewSelector, none) := by
  obtain ⟨h1, h2⟩ := h
  simp [placementToSelector, h1, h2, addNodeSelector, addSelectorTerms]

/-- With exactly one installation whose placement is set and accepted, the
answer of `nodeWillStillRunVirtHandler` is the match of the built selector. -/
theorem nodeWillStillRunVirtHandler_single (a : NodeAdmitter) (node : corev1.Node)
    (kv : v1.KubeVirt) (workloads : v1.ComponentConfig) (placement : v1.NodePlacement)
    (selector : labels.Selector)
    (hkvs : a.listKubeVirts = .ok [kv])
    (hw : kv.Spec.Workloads = some workloads)
    (hp : workloads.NodePlacement = some placement)
    (hsel : placementToSelector placement = (selector, none)) :
    a.nodeWillStillRunVirtHandler node = .returns (selector.Matches node.Labels, none) := by
  unfold NodeAdmitter.nodeWillStillRunVirtHandler
  rw [hkvs]
  simp only [List.length_singleton, gt_iff_lt, lt_self_iff_false, if_false, List.head?_cons]
  rw [hw]
  simp only []
  rw [hp]
  simp only []
  rw [hsel]
  rfl

/-- Claim C1. On an Update request whose labels changed (`reflect.DeepEqual` is
false), with at least one virt-launcher pod listed on the new node name, exactly
one KubeVirt in the installation list, its `Workloads.NodePlacement` set, and
`placementToSelector` succeeding on it with `selector`: `Admit` returns a
response that is allowed if and only if `selector` matches the labels of the new
node, and when it does not match the response is the denial with the message
"you must remove all vms from this node before changing the label". -/
theorem Admit_allows_iff_selector_matches (d : Declared) (a : NodeAdmitter)
    (ar : v1beta1.AdmissionReview) (newNode oldNode : corev1.Node)
    (pods : List corev1.Pod) (kv : v1.KubeVirt) (workloads : v1.ComponentConfig)
    (placement : v1.NodePlacement) (selector : labels.Selector)
    (hreq : IsNodeUpdate d ar newNode oldNode)
    (hchanged : DeepEqual newNode.Labels oldNode.Labels = false)
    (hpods : a.listLauncherPods newNode.Name = .ok pods) (hne : pods ≠ [])
    (hkvs : a.listKubeVirts = .ok [kv])
    (hw : kv.Spec.Workloads = some workloads)
    (hp : workloads.NodePlacement = some placement)
    (hsel : placementToSelector placement = (selector, none)) :
    ∃ resp, a.Admit d ar = .returns resp ∧
      (resp.Allowed = true ↔ selector.Matches newNode.Labels = true) ∧
      (selector.Matches newNode.Labels = false →
        resp = { Allowed := false,
                 Message := some
                   "you must remove all vms from this node before changing the label" }) := by
  rw [Admit_update d a ar newNode oldNode hreq, hchanged,
    isNodeRunningVM_of_pods a newNode.Name pods hpods hne,
    nodeWillStillRunVirtHandler_single a newNode kv workloads placement selector hkvs hw hp hsel]
  cases hm : labels.Selector.Matches selector newNode.Labels <;>
    simp [ToAdmissionResponseError, NewPassingAdmissionResponse, removeVMsMessage]

end admitters

namespace admitters

open webhooks

/-- The three rows of the test table that reach the selector: node selector
`foo: bar` is denied, node selector `workload: schedule` is allowed, and the
affinity expression `foo NotIn [updatedbar]` is denied. -/
theorem Admit_allows_iff_selector_matches_witness :
    (DeepEqual testNodeUpdated.Labels testNode.Labels = false ∧
      (placementToSelector placementFooBar).2 = none ∧
      ∃ resp, (admitterWith [testPod] [kvWithPlacement placementFooBar]).Admit testDeclared
          (updateReview testNodeUpdated testNode) = .returns resp ∧
        (resp.Allowed = true ↔
          labels.Selector.Matches (placementToSelector placementFooBar).1
            testNodeUpdated.Labels = true) ∧
        (labels.Selector.Matches (placementToSelector placementFooBar).1
            testNodeUpdated.Labels = false →
          resp = { Allowed := false,
                   Message := some
                     "you must remove all vms from this node before changing the label" })) ∧
    (labels.Selector.Matches (placementToSelector placementFooBar).1
        testNodeUpdated.Labels = false) ∧
    (∃ resp, (admitterWith [testPod] [kvWithPlacement placementWorkload]).Admit testDeclared
          (updateReview testNodeUpdated testNode) = .returns resp ∧
        (resp.Allowed = true ↔
          labels.Selector.Matches (placementToSelector placementWorkload).1
            testNodeUpdated.Labels = true) ∧
        (labels.Selector.Matches (placementToSelector placementWorkload).1
            testNodeUpdated.Labels = false →
          resp = { Allowed := false,
                   Message := some
                     "you must remove all vms from this node before changing the label" })) ∧
    (labels.Selector.Matches (placementToSelector placementWorkload).1
        testNodeUpdated.Labels = true) ∧
    (∃ resp, (admitterWith [testPod] [kvWithPlacement placementNotIn]).Admit testDeclared
          (updateReview testNodeUpdated testNode) = .returns resp ∧
        (resp.Allowed = true ↔
          labels.Selector.Matches (placementToSelector placementNotIn).1
            testNodeUpdated.Labels = true) ∧
        (labels.Selector.Matches (placementToSelector placementNotIn).1
            testNodeUpdated.Labels = false →
          resp = { Allowed := false,
                   Message := some
                     "you must remove all vms from this node before changing the label" })) ∧
    (labels.Selector.Matches (placementToSelector placementNotIn).1
        testNodeUpdated.Labels = false) :=
  ⟨⟨by decide, by decide,
      Admit_allows_iff_selector_matches testDeclared _ _ testNodeUpdated testNode [testPod]
        (kvWithPlacement placementFooBar) _ placementFooBar _
        ⟨rfl, rfl, rfl, rfl, rfl⟩ (by decide) rfl (by decide) rfl rfl rfl rfl⟩,
    by decide,
    Admit_allows_iff_selector_matches testDeclared _ _ testNodeUpdated testNode [testPod]
      (kvWithPlacement placementWorkload) _ placementWorkload _
      ⟨rfl, rfl, rfl, rfl, rfl⟩ (by decide) rfl (by decide) rfl rfl rfl rfl,
    by decide,
    Admit_allows_iff_selector_matches testDeclared _ _ testNodeUpdated testNode [testPod]
      (kvWithPlacement placementNotIn) _ placementNotIn _
      ⟨rfl, rfl, rfl, rfl, rfl⟩ (by decide) rfl (by decide) rfl rfl rfl rfl,
    by decide⟩

/-- When `reflect.DeepEqual` holds of the new and the old labels, `Admit`
allows an Update request, whatever the two queries would answer. -/
theorem Admit_allows_DeepEqual_labels (d : Declared) (a : NodeAdmitter)
    (ar : v1beta1.AdmissionReview) (newNode oldNode : corev1.Node)
    (hreq : IsNodeUpdate d ar newNode oldNode)
    (hsame : DeepEqual newNode.Labels oldNode.Labels = true) :
    a.Admit d ar = .returns NewPassingAdmissionResponse := by
  rw [Admit_update d a ar newNode oldNode hreq, hsame]
  rfl

/-- Claim C2, as stated, fails at the pair it names. The old node has no labels
field and the new node has an empty labels map, so both carry the same (no)
label pairs; `reflect.DeepEqual` tells a nil map from an empty one, and with a
launcher pod on the node and the placement `foo: bar` the request is denied
with the label-change message. -/
theorem Admit_denies_nil_to_empty_labels :
    (∀ k : String, mapHas nodeEmptyLabels.Labels k = mapHas nodeNilLabels.Labels k ∧
      mapGet nodeEmptyLabels.Labels k = mapGet nodeNilLabels.Labels k) ∧
    DeepEqual nodeEmptyLabels.Labels nodeNilLabels.Labels = false ∧
    (admitterWith [testPod] [kvWithPlacement placementFooBar]).Admit testDeclared
        (updateReview nodeEmptyLabels nodeNilLabels) =
      .returns { Allowed := false,
                 Message := some
                   "you must remove all vms from this node before changing the label" } :=
  ⟨fun _ => ⟨rfl, rfl⟩, by decide, by decide⟩

/-- Claim C3. On an Update request whose labels changed, when the pod list
query for the new node name succeeds with no pod, `Admit` allows the request
whatever the installation list query would answer: replacing that query by any
other leaves the verdict Allow. -/
theorem Admit_allows_without_launcher_pod (d : Declared) (a : NodeAdmitter)
    (ar : v1beta1.AdmissionReview) (newNode oldNode : corev1.Node)
    (hreq : IsNodeUpdate d ar newNode oldNode)
    (hchanged : DeepEqual newNode.Labels oldNode.Labels = false)
    (hpods : a.listLauncherPods newNode.Name = .ok []) :
    ∀ kubeVirtList : String → metav1.ListOptions → Except GoError (List v1.KubeVirt),
      NodeAdmitter.Admit d { Client := { a.Client with KubeVirtList := kubeVirtList } } ar =
        .returns NewPassingAdmissionResponse := by
  intro kubeVirtList
  have hpods2 : NodeAdmitter.listLauncherPods
      { Client := { a.Client with KubeVirtList := kubeVirtList } } newNode.Name = .ok [] := hpods
  rw [Admit_update d _ ar newNode oldNode hreq, hchanged]
  simp [NodeAdmitter.isNodeRunningVM, hpods2]

/-- The worked input for C3: no launcher pod, and an installation list query
that fails, or lists none, one or two installations. -/
theorem Admit_allows_without_launcher_pod_witness :
    DeepEqual testNodeUpdated.Labels testNode.Labels = false ∧
    ∀ kubeVirtList : String → metav1.ListOptions → Except GoError (List v1.KubeVirt),
      NodeAdmitter.Admit testDeclared
          { Client := { (admitterWith [] []).Client with KubeVirtList := kubeVirtList } }
          (updateReview testNodeUpdated testNode) =
        .returns NewPassingAdmissionResponse :=
  ⟨by decide,
    Admit_allows_without_launcher_pod testDeclared (admitterWith [] [])
      (updateReview testNodeUpdated testNode) testNodeUpdated testNode
      ⟨rfl, rfl, rfl, rfl, rfl⟩ (by decide) rfl⟩

/-- Claim C4. On an Update request whose labels changed, with a launcher pod
listed on the node and exactly one KubeVirt in the installation list that
imposes no placement constraint (`Workloads` nil, `NodePlacement` nil, or a
placement with no node selector entry and no selector term), `Admit` allows the
request, whatever the new labels are; and on a placement of the third shape
`placementToSelector` succeeds with a selector that matches every label set. -/
theorem Admit_allows_without_placement_constraint (d : Declared) (a : NodeAdmitter)
    (ar : v1beta1.AdmissionReview) (newNode oldNode : corev1.Node)
    (pods : List corev1.Pod) (kv : v1.KubeVirt)
    (hreq : IsNodeUpdate d ar newNode oldNode)
    (hchanged : DeepEqual newNode.Labels oldNode.Labels = false)
    (hpods : a.listLauncherPods newNode.Name = .ok pods) (hne : pods ≠ [])
    (hkvs : a.listKubeVirts = .ok [kv])
    (hkv : NoPlacementConstraint kv) :
    a.Admit d ar = .returns NewPassingAdmissionResponse ∧
      ∀ p, Unconstrained p →
        ∃ selector, placementToSelector p = (selector, none) ∧
          ∀ ls, selector.Matches ls = true := by
  refine ⟨?_, fun p hu =>
    ⟨_, placementToSelector_unconstrained p hu, NewSelector_Matches⟩⟩
  rw [Admit_update d a ar newNode oldNode hreq, hchanged,
    isNodeRunningVM_of_pods a newNode.Name pods hpods hne]
  rcases hkv with hw | ⟨w, hw, hp⟩ | ⟨w, p, hw, hp, hu⟩
  · have h : a.nodeWillStillRunVirtHandler newNode = .returns (true, none) := by
      unfold NodeAdmitter.nodeWillStillRunVirtHandler
      rw [hkvs]
      simp only [List.length_singleton, gt_iff_lt, lt_self_iff_false, if_false, List.head?_cons]
      rw [hw]
    rw [h]; rfl
  · have h : a.nodeWillStillRunVirtHandler newNode = .returns (true, none) := by
      unfold NodeAdmitter.nodeWillStillRunVirtHandler
      rw [hkvs]
      simp only [List.length_singleton, gt_iff_lt, lt_self_iff_false, if_false, List.head?_cons]
      rw [hw]
      simp only []
      rw [hp]
    rw [h]; rfl
  · rw [nodeWillStillRunVirtHandler_single a newNode kv w p labels.NewSelector hkvs hw hp
      (placementToSelector_unconstrained p hu), NewSelector_Matches]
    rfl

/-- The worked inputs for C4: the three shapes of an unconstrained
installation, each with a launcher pod and the label change of the test
table. -/
theorem Admit_allows_without_placement_constraint_witness :
    DeepEqual testNodeUpdated.Labels testNode.Labels = false ∧
    (admitterWith [testPod] [{ Generation := 1, Spec := { Workloads := none } }]).Admit
        testDeclared (updateReview testNodeUpdated testNode) =
      .returns NewPassingAdmissionResponse ∧
    (admitterWith [testPod]
        [{ Generation := 1, Spec := { Workloads := some { NodePlacement := none } } }]).Admit
        testDeclared (updateReview testNodeUpdated testNode) =
      .returns NewPassingAdmissionResponse ∧
    (admitterWith [testPod] [kvWithPlacement placementEmpty]).Admit
        testDeclared (updateReview testNodeUpdated testNode) =
      .returns NewPassingAdmissionResponse :=
  ⟨by decide,
    (Admit_allows_without_placement_constraint testDeclared
      (admitterWith [testPod] [{ Generation := 1, Spec := { Workloads := none } }])
      (updateReview testNodeUpdated testNode) testNodeUpdated testNode [testPod]
      { Generation := 1, Spec := { Workloads := none } }
      ⟨rfl, rfl, rfl, rfl, rfl⟩ (by decide) rfl (by decide) rfl (Or.inl rfl)).1,
    (Admit_allows_without_placement_constraint testDeclared
      (admitterWith [testPod]
        [{ Generation := 1, Spec := { Workloads := some { NodePlacement := none } } }])
      (updateReview testNodeUpdated testNode) testNodeUpdated testNode [testPod]
      { Generation := 1, Spec := { Workloads := some { NodePlacement := none } } }
      ⟨rfl, rfl, rfl, rfl, rfl⟩ (by decide) rfl (by decide) rfl
      (Or.inr (Or.inl ⟨{ NodePlacement := none }, rfl, rfl⟩))).1,
    (Admit_allows_without_placement_constraint testDeclared
      (admitterWith [testPod] [kvWithPlacement placementEmpty])
      (updateReview testNodeUpdated testNode) testNodeUpdated testNode [testPod]
      (kvWithPlacement placementEmpty)
      ⟨rfl, rfl, rfl, rfl, rfl⟩ (by decide) rfl (by decide) rfl
      (Or.inr (Or.inr ⟨{ NodePlacement := some placementEmpty }, placementEmpty,
        rfl, rfl, rfl, rfl⟩))).1⟩

/-- Claim C5, at the input where the code departs from it. With changed
labels, a launcher pod on the node and an installation list query that succeeds
with zero entries, `nodeWillStillRunVirtHandler` reads `kvs.Items[0]` and
`Admit` ends in a run-time panic instead of allowing the request. -/
theorem Admit_panics_on_empty_installation_list :
    DeepEqual testNodeUpdated.Labels testNode.Labels = false ∧
    (admitterWith [testPod] []).listKubeVirts = .ok [] ∧
    (admitterWith [testPod] []).nodeWillStillRunVirtHandler testNodeUpdated =
      .panics "runtime error: index out of range [0] with length 0" ∧
    (admitterWith [testPod] []).Admit testDeclared (updateReview testNodeUpdated testNode) =
      .panics "runtime error: index out of range [0] with length 0" :=
  ⟨by decide, rfl, by decide, by decide⟩

/-- Claim C6. On an Update request whose labels changed, with a launcher pod
listed on the node, when the installation list holds more than one KubeVirt,
`Admit` returns the response that is not allowed and carries the message "you
can not have more than one KubeVirt install", whatever the placements of the
listed installations are. -/
theorem Admit_refuses_multiple_installs (d : Declared) (a : NodeAdmitter)
    (ar : v1beta1.AdmissionReview) (newNode oldNode : corev1.Node)
    (pods : List corev1.Pod) (kvs : List v1.KubeVirt)
    (hreq : IsNodeUpdate d ar newNode oldNode)
    (hchanged : DeepEqual newNode.Labels oldNode.Labels = false)
    (hpods : a.listLauncherPods newNode.Name = .ok pods) (hne : pods ≠ [])
    (hkvs : a.listKubeVirts = .ok kvs) (hmany : kvs.length > 1) :
    a.Admit d ar =
      .returns { Allowed := false,
                 Message := some "you can not have more than one KubeVirt install" } := by
  rw [Admit_update d a ar newNode oldNode hreq, hchanged,
    isNodeRunningVM_of_pods a newNode.Name pods hpods hne]
  have h : a.nodeWillStillRunVirtHandler newNode =
      .returns (false, some "you can not have more than one KubeVirt install") := by
    unfold NodeAdmitter.nodeWillStillRunVirtHandler
    rw [hkvs]
    simp only [hmany, if_true]
  rw [h]; rfl

/-- The worked input for C6: two installations whose placement
`workload: schedule` both match the new labels; the request is refused all the
same. -/
theorem Admit_refuses_multiple_installs_witness :
    labels.Selector.Matches (placementToSelector placementWorkload).1
        testNodeUpdated.Labels = true ∧
    (admitterWith [testPod]
        [kvWithPlacement placementWorkload, kvWithPlacement placementWorkload]).Admit
        testDeclared (updateReview testNodeUpdated testNode) =
      .returns { Allowed := false,
                 Message := some "you can not have more than one KubeVirt install" } :=
  ⟨by decide,
    Admit_refuses_multiple_installs testDeclared _ _ testNodeUpdated testNode [testPod]
      [kvWithPlacement placementWorkload, kvWithPlacement placementWorkload]
      ⟨rfl, rfl, rfl, rfl, rfl⟩ (by decide) rfl (by decide) rfl (by decide)⟩

/-- Claim C7. On an Update request whose labels changed, if the pod list query
returns an error, or it returns at least one pod and the installation list
query returns an error, then `Admit` returns a response that is not allowed and
whose message is the text of that error. -/
theorem Admit_fails_closed_on_read_failure (d : Declared) (a : NodeAdmitter)
    (ar : v1beta1.AdmissionReview) (newNode oldNode : corev1.Node) (err : GoError)
    (hreq : IsNodeUpdate d ar newNode oldNode)
    (hchanged : DeepEqual newNode.Labels oldNode.Labels = false)
    (hfail : a.listLauncherPods newNode.Name = .error err ∨
      ∃ pods, a.listLauncherPods newNode.Name = .ok pods ∧ pods ≠ [] ∧
        a.listKubeVirts = .error err) :
    ∃ resp, a.Admit d ar = .returns resp ∧ resp.Allowed = false ∧ resp.Message = some err := by
  rw [Admit_update d a ar newNode oldNode hreq, hchanged]
  rcases hfail with hp | ⟨pods, hp, hne, hk⟩
  · refine ⟨ToAdmissionResponseError err, ?_, rfl, rfl⟩
    simp [NodeAdmitter.isNodeRunningVM, hp]
  · refine ⟨ToAdmissionResponseError err, ?_, rfl, rfl⟩
    rw [isNodeRunningVM_of_pods a newNode.Name pods hp hne]
    have h : a.nodeWillStillRunVirtHandler newNode = .returns (false, some err) := by
      unfold NodeAdmitter.nodeWillStillRunVirtHandler
      rw [hk]
    rw [h]; rfl

/-- The worked inputs for C7: a failing pod list query, and a failing
installation list query behind a listed launcher pod. -/
theorem Admit_fails_closed_on_read_failure_witness :
    DeepEqual testNodeUpdated.Labels testNode.Labels = false ∧
    (∃ resp, (admitterAnswering (.error "pods: connection refused")
          (.ok [kvWithPlacement placementWorkload])).Admit testDeclared
          (updateReview testNodeUpdated testNode) = .returns resp ∧
        resp.Allowed = false ∧ resp.Message = some "pods: connection refused") ∧
    (∃ resp, (admitterAnswering (.ok [testPod]) (.error "kubevirts: timeout")).Admit
          testDeclared (updateReview testNodeUpdated testNode) = .returns resp ∧
        resp.Allowed = false ∧ resp.Message = some "kubevirts: timeout") :=
  ⟨by decide,
    Admit_fails_closed_on_read_failure testDeclared _ _ testNodeUpdated testNode _
      ⟨rfl, rfl, rfl, rfl, rfl⟩ (by decide) (Or.inl rfl),
    Admit_fails_closed_on_read_failure testDeclared _ _ testNodeUpdated testNode _
      ⟨rfl, rfl, rfl, rfl, rfl⟩ (by decide) (Or.inr ⟨[testPod], rfl, by decide, rfl⟩)⟩

end admitters

/-! ## Theorems: the RBAC reconciler -/

namespace installstrategy

open cache util kubecli

/-- Lowering what was just raised restores every counter. -/
theorem LowerExpectations_RaiseExpectations (e : ControllerExpectations) (key : String)
    (add del : Int) :
    LowerExpectations (RaiseExpectations e key add del) key add del = e := by
  funext k
  by_cases h : k = key <;> simp [LowerExpectations, RaiseExpectations, h]

/-- Claim C8. For each of `createOrUpdateClusterRole`,
`createOrUpdateClusterRoleBinding`, `createOrUpdateRole` and
`createOrUpdateRoleBinding` (the latter two outside the monitor service account
exemption), when the store of the kind holds nothing under the key of the
desired object: the run returns after exactly one call, the Create of the
stamped desired object, and no Update; if the cluster refuses the Create the
run returns a non-nil error and every expectation counter is what it was
before; if the cluster accepts it the run returns nil and the pending add count
of the owner key for the kind is one higher than before. -/
theorem createOrUpdate_absent_creates_once (d : Declared) (r : Reconciler)
    (imageTag imageRegistry id namespace_ : String) :
    (∀ cr : rbacv1.ClusterRole,
      r.stores.ClusterRoleCache.Get (.ClusterRole cr) = none →
      CreatedOnce r (fun e => e.ClusterRole)
        (.ClusterRolesCreate { cr with
          ObjectMeta :=
            d.injectOperatorMetadata r.kv cr.ObjectMeta imageTag imageRegistry id true })
        (r.createOrUpdateClusterRole d cr imageTag imageRegistry id)) ∧
    (∀ crb : rbacv1.ClusterRoleBinding,
      r.stores.ClusterRoleBindingCache.Get (.ClusterRoleBinding crb) = none →
      CreatedOnce r (fun e => e.ClusterRoleBinding)
        (.ClusterRoleBindingsCreate { crb with
          ObjectMeta :=
            d.injectOperatorMetadata r.kv crb.ObjectMeta imageTag imageRegistry id true })
        (r.createOrUpdateClusterRoleBinding d crb imageTag imageRegistry id)) ∧
    (∀ role : rbacv1.Role,
      (!r.stores.ServiceMonitorEnabled &&
        role.ObjectMeta.Name == d.MONITOR_SERVICEACCOUNT_NAME) = false →
      r.stores.RoleCache.Get (.Role role) = none →
      CreatedOnce r (fun e => e.Role)
        (.RolesCreate namespace_ { role with
          ObjectMeta :=
            d.injectOperatorMetadata r.kv role.ObjectMeta imageTag imageRegistry id true })
        (r.createOrUpdateRole d role imageTag imageRegistry id namespace_)) ∧
    (∀ rb : rbacv1.RoleBinding,
      (!r.stores.ServiceMonitorEnabled &&
        rb.ObjectMeta.Name == d.MONITOR_SERVICEACCOUNT_NAME) = false →
      r.stores.RoleBindingCache.Get (.RoleBinding rb) = none →
      CreatedOnce r (fun e => e.RoleBinding)
        (.RoleBindingsCreate namespace_ { rb with
          ObjectMeta :=
            d.injectOperatorMetadata r.kv rb.ObjectMeta imageTag imageRegistry id true })
        (r.createOrUpdateRoleBinding d rb imageTag imageRegistry id namespace_)) := by
  refine ⟨?_, ?_, ?_, ?_⟩
  · intro cr hget
    unfold Reconciler.createOrUpdateClusterRole CreatedOnce
    rw [hget]
    simp only [Reconciler.issue, Clientset.issue]
    cases hres : r.clientset.respond r.clientset.calls
      (.ClusterRolesCreate { cr with
        ObjectMeta :=
          d.injectOperatorMetadata r.kv cr.ObjectMeta imageTag imageRegistry id true }) with
    | none =>
      exact ⟨_, _, rfl, rfl, rfl, fun h => absurd rfl h,
        fun _ => ⟨rfl, by simp [RaiseExpectations], by simp [RaiseExpectations]⟩⟩
    | some e =>
      refine ⟨_, _, rfl, rfl, rfl, fun _ => ⟨by simp, ?_⟩, fun h => by simp at h⟩
      simp only [LowerExpectations_RaiseExpectations]
  · intro crb hget
    unfold Reconciler.createOrUpdateClusterRoleBinding CreatedOnce
    rw [hget]
    simp only [Reconciler.issue, Clientset.issue]
    cases hres : r.clientset.respond r.clientset.calls
      (.ClusterRoleBindingsCreate { crb with
        ObjectMeta :=
          d.injectOperatorMetadata r.kv crb.ObjectMeta imageTag imageRegistry id true }) with
    | none =>
      exact ⟨_, _, rfl, rfl, rfl, fun h => absurd rfl h,
        fun _ => ⟨rfl, by simp [RaiseExpectations], by simp [RaiseExpectations]⟩⟩
    | some e =>
      refine ⟨_, _, rfl, rfl, rfl, fun _ => ⟨by simp, ?_⟩, fun h => by simp at h⟩
      simp only [LowerExpectations_RaiseExpectations]
  · intro role hex hget
    unfold Reconciler.createOrUpdateRole CreatedOnce
    rw [hex, hget]
    simp only [Reconciler.issue, Clientset.issue]
    cases hres : r.clientset.respond r.clientset.calls
      (.RolesCreate namespace_ { role with
        ObjectMeta :=
          d.injectOperatorMetadata r.kv role.ObjectMeta imageTag imageRegistry id true }) with
    | none =>
      exact ⟨_, _, rfl, rfl, rfl, fun h => absurd rfl h,
        fun _ => ⟨rfl, by simp [RaiseExpectations], by simp [RaiseExpectations]⟩⟩
    | some e =>
      refine ⟨_, _, rfl, rfl, rfl, fun _ => ⟨by simp, ?_⟩, fun h => by simp at h⟩
      simp only [LowerExpectations_RaiseExpectations]
  · intro rb hex hget
    unfold Reconciler.createOrUpdateRoleBinding CreatedOnce
    rw [hex, hget]
    simp only [Reconciler.issue, Clientset.issue]
    cases hres : r.clientset.respond r.clientset.calls
      (.RoleBindingsCreate namespace_ { rb with
        ObjectMeta :=
          d.injectOperatorMetadata r.kv rb.ObjectMeta imageTag imageRegistry id true }) with
    | none =>
      exact ⟨_, _, rfl, rfl, rfl, fun h => absurd rfl h,
        fun _ => ⟨rfl, by simp [RaiseExpectations], by simp [RaiseExpectations]⟩⟩
    | some e =>
      refine ⟨_, _, rfl, rfl, rfl, fun _ => ⟨by simp, ?_⟩, fun h => by simp at h⟩
      simp only [LowerExpectations_RaiseExpectations]

/-- Claim C9. For each of the four createOrUpdate operations, when the store of
the kind holds, under the key of the desired object, an object of the kind for
which `objectMatchesVersion` holds with the desired image tag, registry and
identifier and the generation of the installation, the run returns nil and
leaves the reconciler as it was: no Create and no Update is issued and every
expectation counter is unchanged. The state a run leaves is the state it
started from, so a second run against the same stores does the same. -/
theorem createOrUpdate_current_is_noop (d : Declared) (r : Reconciler)
    (imageTag imageRegistry id namespace_ : String) :
    (∀ (cr cachedCr : rbacv1.ClusterRole),
      r.stores.ClusterRoleCache.Get (.ClusterRole cr) = some (.ClusterRole cachedCr) →
      d.objectMatchesVersion cachedCr.ObjectMeta imageTag imageRegistry id
        r.kv.GetGeneration = true →
      r.createOrUpdateClusterRole d cr imageTag imageRegistry id = .returns (r, none)) ∧
    (∀ (crb cachedCrb : rbacv1.ClusterRoleBinding),
      r.stores.ClusterRoleBindingCache.Get (.ClusterRoleBinding crb) =
        some (.ClusterRoleBinding cachedCrb) →
      d.objectMatchesVersion cachedCrb.ObjectMeta imageTag imageRegistry id
        r.kv.GetGeneration = true →
      r.createOrUpdateClusterRoleBinding d crb imageTag imageRegistry id =
        .returns (r, none)) ∧
    (∀ (role cachedR : rbacv1.Role),
      r.stores.RoleCache.Get (.Role role) = some (.Role cachedR) →
      d.objectMatchesVersion cachedR.ObjectMeta imageTag imageRegistry id
        r.kv.GetGeneration = true →
      r.createOrUpdateRole d role imageTag imageRegistry id namespace_ = .returns (r, none)) ∧
    (∀ (rb cachedRb : rbacv1.RoleBinding),
      r.stores.RoleBindingCache.Get (.RoleBinding rb) = some (.RoleBinding cachedRb) →
      d.objectMatchesVersion cachedRb.ObjectMeta imageTag imageRegistry id
        r.kv.GetGeneration = true →
      r.createOrUpdateRoleBinding d rb imageTag imageRegistry id namespace_ =
        .returns (r, none)) := by
  refine ⟨?_, ?_, ?_, ?_⟩
  · intro cr cachedCr hget hver
    unfold Reconciler.createOrUpdateClusterRole
    rw [hget]
    simp [hver]
  · intro crb cachedCrb hget hver
    unfold Reconciler.createOrUpdateClusterRoleBinding
    rw [hget]
    simp [hver]
  · intro role cachedR hget hver
    unfold Reconciler.createOrUpdateRole
    rw [hget]
    simp [hver]
  · intro rb cachedRb hget hver
    unfold Reconciler.createOrUpdateRoleBinding
    rw [hget]
    simp [hver]

end installstrategy

namespace installstrategy

open cache util kubecli

/-- Accepted calls followed by accepted calls are accepted calls. -/
theorem AllAccepted_append (respond : List Call → Call → Option GoError) :
    ∀ (xs base ys : List Call), AllAccepted respond base xs →
      AllAccepted respond (base ++ xs) ys → AllAccepted respond base (xs ++ ys)
  | [], base, ys, _, h2 => by simpa using h2
  | x :: xs, base, ys, h1, h2 => by
    refine ⟨h1.1, AllAccepted_append respond xs (base ++ [x]) ys h1.2 ?_⟩
    simpa using h2

/-- Raising by nothing changes nothing. -/
theorem RaiseExpectations_zero (e : ControllerExpectations) (key : String) :
    RaiseExpectations e key 0 0 = e := by
  funext k
  by_cases h : k = key <;> simp [RaiseExpectations, h]

/-- Raising twice raises by the sum. -/
theorem RaiseExpectations_RaiseExpectations (e : ControllerExpectations) (key : String)
    (a b : Int) :
    RaiseExpectations (RaiseExpectations e key a 0) key b 0 =
      RaiseExpectations e key (a + b) 0 := by
  funext k
  by_cases h : k = key <;> simp [RaiseExpectations, h, add_assoc]

/-- The Creates of a kind in an append. -/
theorem createsOf_append (k : Kind) (xs ys : List Call) :
    createsOf k (xs ++ ys) = createsOf k xs + createsOf k ys := by
  simp [createsOf]

/-- No call, no pending add. -/
theorem Pending_nil (r r' : Reconciler)
    (h : ∀ k, expectationsOf r'.expectations k = expectationsOf r.expectations k) : Pending r [] r' := by
  intro k
  rw [h k]
  simp [createsOf, RaiseExpectations_zero]

/-- The pending adds of a run after another are those of both. -/
theorem Pending_append (r r1 r' : Reconciler) (xs ys : List Call)
    (hkey : r1.kvKey = r.kvKey) (h1 : Pending r xs r1) (h2 : Pending r1 ys r') :
    Pending r (xs ++ ys) r' := by
  intro k
  rw [h2 k, h1 k, hkey, RaiseExpectations_RaiseExpectations, createsOf_append]

/-- A run that does nothing is fail-fast. -/
theorem FailFast_nil (r : Reconciler) : FailFast r (.returns (r, none)) :=
  ⟨r, none, [], rfl, rfl, rfl, by simp, by simp,
    Or.inl ⟨rfl, trivial, Pending_nil r r fun _ => rfl⟩⟩

/-- A run that ends on a refused Create, with the expectations as they were
before it, is fail-fast. -/
theorem FailFast_refused (r r' : Reconciler) (c : Call) (cerr text : String)
    (hc : c.isCreate = true)
    (hres : r.clientset.respond r.clientset.calls c = some cerr)
    (hkey : r'.kvKey = r.kvKey)
    (hrespond : r'.clientset.respond = r.clientset.respond)
    (hcalls : r'.clientset.calls = r.clientset.calls ++ [c])
    (hexp : ∀ k, expectationsOf r'.expectations k = expectationsOf r.expectations k) :
    FailFast r (.returns (r', some (text ++ ": " ++ cerr))) :=
  ⟨r', _, [c], rfl, hkey, hrespond, hcalls, by simpa using hc,
    Or.inr ⟨[], c, cerr, text, rfl, trivial, by simpa using hres, rfl,
      Pending_nil r r' hexp⟩⟩

/-- A fail-fast run after an accepted Create that left one add pending is a
fail-fast run. -/
theorem FailFast_accepted (r r2 : Reconciler) (c : Call) (out : Step)
    (h : FailFast r2 out)
    (hc : c.isCreate = true)
    (hres : r.clientset.respond r.clientset.calls c = none)
    (hkey : r2.kvKey = r.kvKey)
    (hrespond : r2.clientset.respond = r.clientset.respond)
    (hcalls : r2.clientset.calls = r.clientset.calls ++ [c])
    (hexp : Pending r [c] r2) : FailFast r out := by
  obtain ⟨r', e, new, hout, hkey', hr', hcalls', hcreate, hend⟩ := h
  refine ⟨r', e, c :: new, hout, hkey'.trans hkey, hr'.trans hrespond, ?_, ?_, ?_⟩
  · rw [hcalls', hcalls]; simp
  · intro x hx
    rcases List.mem_cons.mp hx with rfl | hx
    · exact hc
    · exact hcreate x hx
  · rcases hend with ⟨he, hacc, hpend⟩ | ⟨pre, c', cerr, text, hnew, hacc, hres', he, hpend⟩
    · refine Or.inl ⟨he, ⟨hres, ?_⟩, Pending_append r r2 r' [c] new hkey hexp hpend⟩
      rw [← hcalls, ← hrespond]; exact hacc
    · refine Or.inr ⟨c :: pre, c', cerr, text, by simp [hnew], ⟨hres, ?_⟩, ?_, he,
        Pending_append r r2 r' [c] pre hkey hexp hpend⟩
      · rw [← hcalls, ← hrespond]; exact hacc
      · rw [← hrespond]
        have : r.clientset.calls ++ c :: pre = r2.clientset.calls ++ pre := by
          rw [hcalls]; simp
        rw [this]; exact hres'

/-- Sequencing two fail-fast runs gives a fail-fast run. -/
theorem FailFast_andThen (r : Reconciler) (out : Step) (next : Reconciler → Step)
    (h1 : FailFast r out) (h2 : ∀ r1, FailFast r1 (next r1)) :
    FailFast r (out.andThen next) := by
  obtain ⟨r1, e, new, hout, hkey1, hr1, hcalls1, hcreate1, hend1⟩ := h1
  subst hout
  rcases hend1 with ⟨he, hacc, hpend⟩ | ⟨pre, c, cerr, text, hnew, hacc, hres, he, hpend⟩
  · subst he
    obtain ⟨r', e', new', hout', hkey', hr', hcalls', hcreate', hend'⟩ := h2 r1
    refine ⟨r', e', new ++ new', ?_, hkey'.trans hkey1, hr'.trans hr1, ?_, ?_, ?_⟩
    · simpa [Step.andThen] using hout'
    · rw [hcalls', hcalls1]; simp
    · intro x hx
      rcases List.mem_append.mp hx with hx | hx
      · exact hcreate1 x hx
      · exact hcreate' x hx
    · rw [hr1, hcalls1] at hend'
      rcases hend' with ⟨he', hacc', hpend'⟩ |
        ⟨pre', c', cerr', text', hnew', hacc', hres', he', hpend'⟩
      · exact Or.inl ⟨he', AllAccepted_append _ _ _ _ hacc hacc',
          Pending_append r r1 r' new new' hkey1 hpend hpend'⟩
      · refine Or.inr ⟨new ++ pre', c', cerr', text', by simp [hnew'],
          AllAccepted_append _ _ _ _ hacc hacc', ?_, he',
          Pending_append r r1 r' new pre' hkey1 hpend hpend'⟩
        simpa using hres'
  · subst he
    exact ⟨r1, _, new, rfl, hkey1, hr1, hcalls1, hcreate1,
      Or.inr ⟨pre, c, cerr, text, hnew, hacc, hres, rfl, hpend⟩⟩

/-- With an annotations map left by `injectOperatorMetadata`, building the
metadata of a backup returns. -/
theorem backupMeta_returns (d : Declared) (hinj : InjectsAnnotations d) (r : Reconciler)
    (cached : metav1.ObjectMeta) (imageTag imageRegistry id : String) :
    ∃ m, backupMeta d r cached imageTag imageRegistry id = .returns m := by
  unfold backupMeta setAnnotation
  cases h : (d.injectOperatorMetadata r.kv { GenerateName := cached.Name } imageTag
      imageRegistry id true).Annotations with
  | none => exact absurd h (hinj _ _ _ _ _ _)
  | some ann => exact ⟨_, rfl⟩

/-- The cluster role loop of `backupRbac` is fail-fast. -/
theorem backupClusterRoles_failFast (d : Declared) (hinj : InjectsAnnotations d) :
    ∀ (objs : List Object) (r : Reconciler), FailFast r (backupClusterRoles d r objs)
  | [], r => FailFast_nil r
  | obj :: rest, r => by
    have ih := backupClusterRoles_failFast d hinj rest
    unfold backupClusterRoles
    cases obj with
    | ClusterRole cachedCr =>
      simp only []
      split
      · exact ih r
      · cases hann : backupAnnotations d cachedCr.ObjectMeta with
        | none => exact ih r
        | some t =>
          obtain ⟨imageTag, imageRegistry, id⟩ := t
          obtain ⟨m, hm⟩ := backupMeta_returns d hinj r cachedCr.ObjectMeta imageTag
            imageRegistry id
          simp only [hm, Reconciler.issue, Clientset.issue]
          cases hres : r.clientset.respond r.clientset.calls
            (.ClusterRolesCreate { cachedCr with ObjectMeta := m }) with
          | none =>
            exact FailFast_accepted r _ (.ClusterRolesCreate { cachedCr with ObjectMeta := m })
              _ (ih _) rfl hres rfl rfl rfl
              (by
                intro k
                cases k <;>
                  simp [expectationsOf, createsOf, createKind, RaiseExpectations_zero])
          | some cerr =>
            exact FailFast_refused r _ (.ClusterRolesCreate { cachedCr with ObjectMeta := m })
              cerr _ rfl hres rfl rfl rfl
              (by
                intro k
                cases k <;> simp [expectationsOf, LowerExpectations_RaiseExpectations])
    | ClusterRoleBinding o => exact ih r
    | Role o => exact ih r
    | RoleBinding o => exact ih r

/-- The cluster role binding loop of `backupRbac` is fail-fast. -/
theorem backupClusterRoleBindings_failFast (d : Declared) (hinj : InjectsAnnotations d) :
    ∀ (objs : List Object) (r : Reconciler), FailFast r (backupClusterRoleBindings d r objs)
  | [], r => FailFast_nil r
  | obj :: rest, r => by
    have ih := backupClusterRoleBindings_failFast d hinj rest
    unfold backupClusterRoleBindings
    cases obj with
    | ClusterRoleBinding cached =>
      simp only []
      split
      · exact ih r
      · cases hann : backupAnnotations d cached.ObjectMeta with
        | none => exact ih r
        | some t =>
          obtain ⟨imageTag, imageRegistry, id⟩ := t
          obtain ⟨m, hm⟩ := backupMeta_returns d hinj r cached.ObjectMeta imageTag
            imageRegistry id
          simp only [hm, Reconciler.issue, Clientset.issue]
          cases hres : r.clientset.respond r.clientset.calls
            (.ClusterRoleBindingsCreate { cached with ObjectMeta := m }) with
          | none =>
            exact FailFast_accepted r _ (.ClusterRoleBindingsCreate { cached with ObjectMeta := m })
              _ (ih _) rfl hres rfl rfl rfl
              (by
                intro k
                cases k <;>
                  simp [expectationsOf, createsOf, createKind, RaiseExpectations_zero])
          | some cerr =>
            exact FailFast_refused r _ (.ClusterRoleBindingsCreate { cached with ObjectMeta := m })
              cerr _ rfl hres rfl rfl rfl
              (by
                intro k
                cases k <;> simp [expectationsOf, LowerExpectations_RaiseExpectations])
    | _ => exact ih r

/-- The role loop of `backupRbac` is fail-fast. -/
theorem backupRoles_failFast (d : Declared) (hinj : InjectsAnnotations d) :
    ∀ (objs : List Object) (r : Reconciler), FailFast r (backupRoles d r objs)
  | [], r => FailFast_nil r
  | obj :: rest, r => by
    have ih := backupRoles_failFast d hinj rest
    unfold backupRoles
    cases obj with
    | Role cached =>
      simp only []
      split
      · exact ih r
      · cases hann : backupAnnotations d cached.ObjectMeta with
        | none => exact ih r
        | some t =>
          obtain ⟨imageTag, imageRegistry, id⟩ := t
          obtain ⟨m, hm⟩ := backupMeta_returns d hinj r cached.ObjectMeta imageTag
            imageRegistry id
          simp only [hm, Reconciler.issue, Clientset.issue]
          cases hres : r.clientset.respond r.clientset.calls
            (.RolesCreate cached.ObjectMeta.Namespace { cached with ObjectMeta := m }) with
          | none =>
            exact FailFast_accepted r _ (.RolesCreate cached.ObjectMeta.Namespace { cached with ObjectMeta := m })
              _ (ih _) rfl hres rfl rfl rfl
              (by
                intro k
                cases k <;>
                  simp [expectationsOf, createsOf, createKind, RaiseExpectations_zero])
          | some cerr =>
            exact FailFast_refused r _ (.RolesCreate cached.ObjectMeta.Namespace { cached with ObjectMeta := m })
              cerr _ rfl hres rfl rfl rfl
              (by
                intro k
                cases k <;> simp [expectationsOf, LowerExpectations_RaiseExpectations])
    | _ => exact ih r

/-- The role binding loop of `backupRbac` is fail-fast. -/
theorem backupRoleBindings_failFast (d : Declared) (hinj : InjectsAnnotations d) :
    ∀ (objs : List Object) (r : Reconciler), FailFast r (backupRoleBindings d r objs)
  | [], r => FailFast_nil r
  | obj :: rest, r => by
    have ih := backupRoleBindings_failFast d hinj rest
    unfold backupRoleBindings
    cases obj with
    | RoleBinding cached =>
      simp only []
      split
      · exact ih r
      · cases hann : backupAnnotations d cached.ObjectMeta with
        | none => exact ih r
        | some t =>
          obtain ⟨imageTag, imageRegistry, id⟩ := t
          obtain ⟨m, hm⟩ := backupMeta_returns d hinj r cached.ObjectMeta imageTag
            imageRegistry id
          simp only [hm, Reconciler.issue, Clientset.issue]
          cases hres : r.clientset.respond r.clientset.calls
            (.RoleBindingsCreate cached.ObjectMeta.Namespace { cached with ObjectMeta := m }) with
          | none =>
            exact FailFast_accepted r _ (.RoleBindingsCreate cached.ObjectMeta.Namespace { cached with ObjectMeta := m })
              _ (ih _) rfl hres rfl rfl rfl
              (by
                intro k
                cases k <;>
                  simp [expectationsOf, createsOf, createKind, RaiseExpectations_zero])
          | some cerr =>
            exact FailFast_refused r _ (.RoleBindingsCreate cached.ObjectMeta.Namespace { cached with ObjectMeta := m })
              cerr _ rfl hres rfl rfl rfl
              (by
                intro k
                cases k <;> simp [expectationsOf, LowerExpectations_RaiseExpectations])
    | _ => exact ih r

/-- The method `backupRbac` is fail-fast. -/
theorem backupRbac_failFast (d : Declared) (hinj : InjectsAnnotations d) (r : Reconciler) :
    FailFast r (r.backupRbac d) := by
  unfold Reconciler.backupRbac
  refine FailFast_andThen r _ _ (backupClusterRoles_failFast d hinj _ r) fun r1 => ?_
  refine FailFast_andThen r1 _ _ (backupClusterRoleBindings_failFast d hinj _ r1) fun r2 => ?_
  refine FailFast_andThen r2 _ _ (backupRoles_failFast d hinj _ r2) fun r3 => ?_
  exact backupRoleBindings_failFast d hinj _ r3

/-- Among accepted calls none is refused. -/
theorem AllAccepted_mid (respond : List Call → Call → Option GoError) :
    ∀ (pre base : List Call) (c : Call) (post : List Call),
      AllAccepted respond base (pre ++ c :: post) → respond (base ++ pre) c = none
  | [], base, c, post, h => by simpa using h.1
  | x :: pre, base, c, post, h => by
    have := AllAccepted_mid respond pre (base ++ [x]) c post h.2
    simpa using this

/-- In a fail-fast run a refused call is the last call issued, the returned
error ends with the text of the refusal, and the pending adds are those of the
calls before it; without a refused call the run returns nil and the pending
adds are those of all the calls. -/
theorem FailFast_refused_is_last (r r' : Reconciler) (e : Option GoError)
    (out : Step) (h : FailFast r out) (hout : out = .returns (r', e)) :
    ∃ new, r'.clientset.calls = r.clientset.calls ++ new ∧
      (∀ c ∈ new, c.isCreate = true) ∧
      ((∀ pre c post, new = pre ++ c :: post →
          r.clientset.respond (r.clientset.calls ++ pre) c = none) →
        e = none ∧ Pending r new r') ∧
      ∀ pre c post cerr, new = pre ++ c :: post →
        r.clientset.respond (r.clientset.calls ++ pre) c = some cerr →
        post = [] ∧ (∃ text, e = some (text ++ ": " ++ cerr)) ∧ Pending r pre r' := by
  obtain ⟨r1, e1, new, hout1, _, _, hcalls, hcreate, hend⟩ := h
  rw [hout] at hout1
  injection hout1 with hpair
  injection hpair with hr he
  subst hr he
  refine ⟨new, hcalls, hcreate, ?_, ?_⟩
  · intro hall
    rcases hend with ⟨he, _, hpend⟩ | ⟨pre, c, cerr, text, hnew, _, hres, _, _⟩
    · exact ⟨he, hpend⟩
    · have := hall pre c [] hnew
      rw [hres] at this
      exact absurd this (by simp)
  · intro pre c post cerr hnew hres
    rcases hend with ⟨_, hacc, _⟩ | ⟨pre1, c1, cerr1, text, hnew1, hacc, hres1, he, hpend⟩
    · rw [hnew] at hacc
      have := AllAccepted_mid _ pre _ c post hacc
      rw [hres] at this
      exact absurd this (by simp)
    · rcases List.eq_nil_or_concat post with hpost | ⟨post1, z, hpost⟩
      · subst hpost
        have h2 : pre ++ [c] = pre1 ++ [c1] := hnew.symm.trans hnew1
        have hp : pre = pre1 := List.append_inj_left' h2 rfl
        have hc : [c] = [c1] := List.append_inj_right' h2 rfl
        have hc1 : c = c1 := by simpa using hc
        subst hp hc1
        rw [hres] at hres1
        injection hres1 with hcerr
        subst hcerr
        exact ⟨rfl, ⟨text, he⟩, hpend⟩
      · subst hpost
        have h2 : (pre ++ c :: post1) ++ [z] = pre1 ++ [c1] := by
          rw [← hnew1, hnew]; simp
        have hp : pre ++ c :: post1 = pre1 := List.append_inj_left' h2 rfl
        rw [← hp] at hacc
        have := AllAccepted_mid _ pre _ c post1 hacc
        rw [hres] at this
        exact absurd this (by simp)

end installstrategy

namespace installstrategy

open cache util kubecli

/-- The worked inputs for C8: with empty stores, a refused Create of the
cluster role leaves every counter as it was, and an accepted Create of the role
leaves one add pending. -/
theorem createOrUpdate_absent_creates_once_witness :
    ((reconcilerOver emptyStores refuseAll).stores.ClusterRoleCache.Get
        (.ClusterRole desiredClusterRole) = none ∧
      CreatedOnce (reconcilerOver emptyStores refuseAll) (fun e => e.ClusterRole)
        (.ClusterRolesCreate stampedClusterRole)
        ((reconcilerOver emptyStores refuseAll).createOrUpdateClusterRole sampleDeclared
          desiredClusterRole "v0.2.0" "registry.example" "install-1")) ∧
    ((reconcilerOver emptyStores acceptAll).stores.RoleCache.Get (.Role desiredRole) = none ∧
      CreatedOnce (reconcilerOver emptyStores acceptAll) (fun e => e.Role)
        (.RolesCreate "kubevirt" stampedRole)
        ((reconcilerOver emptyStores acceptAll).createOrUpdateRole sampleDeclared
          desiredRole "v0.2.0" "registry.example" "install-1" "kubevirt")) :=
  ⟨⟨rfl, (createOrUpdate_absent_creates_once sampleDeclared (reconcilerOver emptyStores refuseAll)
      "v0.2.0" "registry.example" "install-1" "kubevirt").1 desiredClusterRole rfl⟩,
    ⟨rfl, (createOrUpdate_absent_creates_once sampleDeclared (reconcilerOver emptyStores acceptAll)
      "v0.2.0" "registry.example" "install-1" "kubevirt").2.2.1 desiredRole rfl rfl⟩⟩

/-- The worked inputs for C9: stores that hold the desired cluster role and
role at the desired version; the runs leave the reconciler as it was. -/
theorem createOrUpdate_current_is_noop_witness :
    (sampleDeclared.objectMatchesVersion
        { Name := "kubevirt-controller", Annotations := versionAnnotations "v0.2.0" }
        "v0.2.0" "registry.example" "install-1" sampleKV.GetGeneration = true ∧
      (reconcilerOver currentStores acceptAll).createOrUpdateClusterRole sampleDeclared
          desiredClusterRole "v0.2.0" "registry.example" "install-1" =
        .returns (reconcilerOver currentStores acceptAll, none)) ∧
    (reconcilerOver currentStores acceptAll).createOrUpdateRole sampleDeclared
        desiredRole "v0.2.0" "registry.example" "install-1" "kubevirt" =
      .returns (reconcilerOver currentStores acceptAll, none) :=
  ⟨⟨by decide,
      (createOrUpdate_current_is_noop sampleDeclared (reconcilerOver currentStores acceptAll)
        "v0.2.0" "registry.example" "install-1" "kubevirt").1 desiredClusterRole _ rfl
        (by decide)⟩,
    (createOrUpdate_current_is_noop sampleDeclared (reconcilerOver currentStores acceptAll)
      "v0.2.0" "registry.example" "install-1" "kubevirt").2.2.1 desiredRole _ rfl (by decide)⟩

/-- The sample `injectOperatorMetadata` leaves an annotations map behind. -/
theorem sampleDeclared_injects : InjectsAnnotations sampleDeclared := by
  intro kv m version registry id custom
  simp [sampleDeclared, sampleInject]

/-- Claim C10, as stated, fails. The cluster role store holds two stale cluster
roles and the role store one stale role, all in need of a backup, and the
cluster refuses every Create: `backupRbac` returns the error of the first
backup after that single call; the backup of the second cluster role and that
of the role are never attempted, though a run against a cluster that accepts
every call creates all three. -/
theorem backupRbac_skips_remaining_after_refusal :
    sampleDeclared.needsClusterRoleBackup sampleKV staleStores
        (cachedClusterRole "kubevirt-handler" "uid-b" "v0.1.0") = true ∧
    sampleDeclared.needsRoleBackup sampleKV staleStores
        (cachedRole "kubevirt-handler" "uid-c" "v0.1.0") = true ∧
    ((reconcilerOver staleStores acceptAll).backupRbac sampleDeclared).calls =
      [.ClusterRolesCreate (backupOf (cachedClusterRole "kubevirt-controller" "uid-a" "v0.1.0")),
       .ClusterRolesCreate (backupOf (cachedClusterRole "kubevirt-handler" "uid-b" "v0.1.0")),
       .RolesCreate "kubevirt" (backupOfRole (cachedRole "kubevirt-handler" "uid-c" "v0.1.0"))] ∧
    ((reconcilerOver staleStores refuseAll).backupRbac sampleDeclared).returned = true ∧
    ((reconcilerOver staleStores refuseAll).backupRbac sampleDeclared).err =
      some "unable to create backup clusterrole kubevirt-controller: create refused" ∧
    ((reconcilerOver staleStores refuseAll).backupRbac sampleDeclared).calls =
      [.ClusterRolesCreate
        (backupOf (cachedClusterRole "kubevirt-controller" "uid-a" "v0.1.0"))] ∧
    Call.ClusterRolesCreate (backupOf (cachedClusterRole "kubevirt-handler" "uid-b" "v0.1.0")) ∉
      ((reconcilerOver staleStores refuseAll).backupRbac sampleDeclared).calls ∧
    Call.RolesCreate "kubevirt" (backupOfRole (cachedRole "kubevirt-handler" "uid-c" "v0.1.0")) ∉
      ((reconcilerOver staleStores refuseAll).backupRbac sampleDeclared).calls := by
  refine ⟨by decide, by decide, by decide, by decide, by decide, by decide, by decide, by decide⟩

/-- Claim C10, amended. Provided `injectOperatorMetadata` leaves an annotations
map behind, `backupRbac` returns, having issued only Create calls. When the
cluster refuses one of them, that call is the last one the run issues (no
backup is attempted for the remaining objects of the list nor for the kinds
processed after it), the returned error is non-nil and ends with the text of
the refusal, and the expectation raised for the refused call has been lowered:
for every kind the expectations are those before the run with one pending add
of the owner key for each Create before the refused one, and nothing else
changed. When the cluster refuses none, the run returns nil with one pending
add for each Create. -/
theorem backupRbac_stops_at_refused_create (d : Declared) (hinj : InjectsAnnotations d)
    (r : Reconciler) :
    ∃ r' e new, r.backupRbac d = .returns (r', e) ∧
      r'.clientset.calls = r.clientset.calls ++ new ∧
      (∀ c ∈ new, c.isCreate = true) ∧
      ((∀ pre c post, new = pre ++ c :: post →
          r.clientset.respond (r.clientset.calls ++ pre) c = none) →
        e = none ∧
        ∀ k, expectationsOf r'.expectations k =
          RaiseExpectations (expectationsOf r.expectations k) r.kvKey (createsOf k new) 0) ∧
      ∀ pre c post cerr, new = pre ++ c :: post →
        r.clientset.respond (r.clientset.calls ++ pre) c = some cerr →
        post = [] ∧ (∃ text, e = some (text ++ ": " ++ cerr)) ∧
        ∀ k, expectationsOf r'.expectations k =
          RaiseExpectations (expectationsOf r.expectations k) r.kvKey (createsOf k pre) 0 := by
  have h := backupRbac_failFast d hinj r
  obtain ⟨r', e, _, hout, _⟩ := id h
  obtain ⟨new, h1, h2, h3, h4⟩ := FailFast_refused_is_last r r' e _ h hout
  exact ⟨r', e, new, hout, h1, h2, h3, h4⟩

/-- The worked inputs for the amended C10: the stale stores against a cluster
that refuses every Create, where no add is left pending, and against a cluster
that accepts the first Create and refuses the second, where one add is left
pending for the cluster roles and none for the roles. -/
theorem backupRbac_stops_at_refused_create_witness :
    InjectsAnnotations sampleDeclared ∧
    (((reconcilerOver staleStores refuseAll).backupRbac sampleDeclared).calls.length = 1 ∧
      ((reconcilerOver staleStores refuseAll).backupRbac sampleDeclared).adds
        .ClusterRole "kubevirt/kubevirt" = 0) ∧
    (((reconcilerOver staleStores (refuseAfter 1)).backupRbac sampleDeclared).calls.length = 2 ∧
      ((reconcilerOver staleStores (refuseAfter 1)).backupRbac sampleDeclared).err =
        some "unable to create backup clusterrole kubevirt-handler: create refused" ∧
      ((reconcilerOver staleStores (refuseAfter 1)).backupRbac sampleDeclared).adds
        .ClusterRole "kubevirt/kubevirt" = 1 ∧
      ((reconcilerOver staleStores (refuseAfter 1)).backupRbac sampleDeclared).adds
        .Role "kubevirt/kubevirt" = 0) ∧
    ∃ r' e new, (reconcilerOver staleStores refuseAll).backupRbac sampleDeclared =
        .returns (r', e) ∧
      r'.clientset.calls = (reconcilerOver staleStores refuseAll).clientset.calls ++ new ∧
      (∀ c ∈ new, c.isCreate = true) ∧
      ((∀ pre c post, new = pre ++ c :: post →
          (reconcilerOver staleStores refuseAll).clientset.respond
            ((reconcilerOver staleStores refuseAll).clientset.calls ++ pre) c = none) →
        e = none ∧
        ∀ k, expectationsOf r'.expectations k =
          RaiseExpectations (expectationsOf (reconcilerOver staleStores refuseAll).expectations k)
            (reconcilerOver staleStores refuseAll).kvKey (createsOf k new) 0) ∧
      ∀ pre c post cerr, new = pre ++ c :: post →
        (reconcilerOver staleStores refuseAll).clientset.respond
          ((reconcilerOver staleStores refuseAll).clientset.calls ++ pre) c = some cerr →
        post = [] ∧ (∃ text, e = some (text ++ ": " ++ cerr)) ∧
        ∀ k, expectationsOf r'.expectations k =
          RaiseExpectations (expectationsOf (reconcilerOver staleStores refuseAll).expectations k)
            (reconcilerOver staleStores refuseAll).kvKey (createsOf k pre) 0 :=
  ⟨sampleDeclared_injects, ⟨by decide, by decide⟩, ⟨by decide, by decide, by decide, by decide⟩,
    backupRbac_stops_at_refused_create sampleDeclared sampleDeclared_injects
      (reconcilerOver staleStores refuseAll)⟩

end installstrategy

/-! ## Theorems: selector terms and operators -/

namespace admitters

open webhooks

/-- The inner loop fails whatever selector it starts from, or appends the same
requirements to it. -/
theorem addMatchExpressions_acc :
    ∀ (exs : List corev1.NodeSelectorRequirement) (acc : labels.Selector),
      addMatchExpressions acc exs =
        match addMatchExpressions labels.NewSelector exs with
        | (reqs, none) => (acc ++ reqs, none)
        | (_, some err) => (labels.NewSelector, some err)
  | [], acc => by simp [addMatchExpressions, labels.NewSelector]
  | ex :: rest, acc => by
    unfold addMatchExpressions
    cases hr : labels.NewRequirement ex.Key (operator ex.Operator) ex.Values with
    | error err => rfl
    | ok r =>
      simp only []
      rw [addMatchExpressions_acc rest (labels.Selector.Add acc r),
        addMatchExpressions_acc rest (labels.Selector.Add labels.NewSelector r)]
      rcases hrest : addMatchExpressions labels.NewSelector rest with ⟨reqs, _ | err⟩
      · simp [labels.Selector.Add, labels.NewSelector]
      · rfl

end admitters

namespace admitters

open webhooks

/-- The function `operator` maps an operator that is none of the six to the
empty string. -/
theorem operator_unrecognized (op : corev1.NodeSelectorOperator) (h : Unrecognized op) :
    operator op = "" := by
  obtain ⟨h1, h2, h3, h4, h5, h6⟩ := h
  simp [operator, h1, h2, h3, h4, h5, h6]

/-- The function `labels.NewRequirement` refuses the empty-string operator,
whatever the key and the values; with a valid key the error is that the
operator is not recognized. -/
theorem NewRequirement_empty_operator (key : String) (vals : List String) :
    (∃ err, labels.NewRequirement key "" vals = .error err) ∧
    (validation.IsQualifiedName key = true →
      labels.NewRequirement key "" vals = .error "operator '' is not recognized") := by
  unfold labels.NewRequirement
  cases hk : validation.IsQualifiedName key
  · exact ⟨⟨_, rfl⟩, fun h => by simp at h⟩
  · have hop : ∀ s : selection.Operator, s ∈ [selection.In, selection.NotIn, selection.Equals,
        selection.DoubleEquals, selection.NotEquals, selection.Exists,
        selection.DoesNotExist, selection.GreaterThan, selection.LessThan] → "" ≠ s := by
      decide
    have h1 := hop selection.In (by simp)
    have h2 := hop selection.NotIn (by simp)
    have h3 := hop selection.Equals (by simp)
    have h4 := hop selection.DoubleEquals (by simp)
    have h5 := hop selection.NotEquals (by simp)
    have h6 := hop selection.Exists (by simp)
    have h7 := hop selection.DoesNotExist (by simp)
    have h8 := hop selection.GreaterThan (by simp)
    have h9 := hop selection.LessThan (by simp)
    simp [h1, h2, h3, h4, h5, h6, h7, h8, h9]

/-- The inner loop fails when one of its expressions is refused. -/
theorem addMatchExpressions_fails :
    ∀ (exs : List corev1.NodeSelectorRequirement) (acc : labels.Selector)
      (ex : corev1.NodeSelectorRequirement), ex ∈ exs →
      (∃ err, labels.NewRequirement ex.Key (operator ex.Operator) ex.Values = .error err) →
      ∃ err, addMatchExpressions acc exs = (labels.NewSelector, some err)
  | [], _, _, hmem, _ => by simp at hmem
  | x :: rest, acc, ex, hmem, hbad => by
    unfold addMatchExpressions
    cases hr : labels.NewRequirement x.Key (operator x.Operator) x.Values with
    | error err => exact ⟨err, rfl⟩
    | ok r =>
      rcases List.mem_cons.mp hmem with rfl | hmem
      · obtain ⟨err, herr⟩ := hbad
        rw [hr] at herr
        cases herr
      · exact addMatchExpressions_fails rest _ ex hmem hbad

/-- The outer loop fails when one expression of one of its terms is refused. -/
theorem addSelectorTerms_fails :
    ∀ (terms : List corev1.NodeSelectorTerm) (acc : labels.Selector)
      (st : corev1.NodeSelectorTerm) (ex : corev1.NodeSelectorRequirement),
      st ∈ terms → ex ∈ st.MatchExpressions →
      (∃ err, labels.NewRequirement ex.Key (operator ex.Operator) ex.Values = .error err) →
      ∃ err, addSelectorTerms acc terms = (labels.NewSelector, some err)
  | [], _, _, _, hmem, _, _ => by simp at hmem
  | t :: rest, acc, st, ex, hmem, hex, hbad => by
    unfold addSelectorTerms
    rcases List.mem_cons.mp hmem with rfl | hmem
    · obtain ⟨err, herr⟩ := addMatchExpressions_fails _ acc ex hex hbad
      rw [herr]
      exact ⟨err, rfl⟩
    · rw [addMatchExpressions_acc]
      rcases ht : addMatchExpressions labels.NewSelector t.MatchExpressions with
        ⟨reqs, _ | err⟩
      · exact addSelectorTerms_fails rest _ st ex hmem hex hbad
      · exact ⟨err, rfl⟩

/-- The first loop of `placementToSelector` returns the empty selector with
its error. -/
theorem addNodeSelector_error :
    ∀ (kvs : List (String × String)) (acc sel : labels.Selector) (err : GoError),
      addNodeSelector acc kvs = (sel, some err) → sel = labels.NewSelector
  | [], acc, sel, err, h => by simp [addNodeSelector] at h
  | (k, v) :: rest, acc, sel, err, h => by
    unfold addNodeSelector at h
    cases hr : labels.NewRequirement k selection.Equals [v] with
    | error e =>
      rw [hr] at h
      simp only [Prod.mk.injEq] at h
      exact h.1.symm
    | ok r =>
      rw [hr] at h
      exact addNodeSelector_error rest _ sel err h

/-- A placement with an expression whose operator is not recognized among its
selector terms is refused by `placementToSelector`. -/
theorem placementToSelector_unrecognized (placement : v1.NodePlacement)
    (st : corev1.NodeSelectorTerm) (ex : corev1.NodeSelectorRequirement)
    (hst : st ∈ selectorterms placement) (hex : ex ∈ st.MatchExpressions)
    (hop : Unrecognized ex.Operator) :
    ∃ err, placementToSelector placement = (labels.NewSelector, some err) := by
  have hbad : ∃ err,
      labels.NewRequirement ex.Key (operator ex.Operator) ex.Values = .error err := by
    rw [operator_unrecognized _ hop]
    exact (NewRequirement_empty_operator ex.Key ex.Values).1
  unfold placementToSelector
  rcases hns : addNodeSelector labels.NewSelector (mapRange placement.NodeSelector) with
    ⟨ns, _ | err⟩
  · exact addSelectorTerms_fails _ ns st ex hst hex hbad
  · have := addNodeSelector_error _ _ _ _ hns
    subst this
    exact ⟨err, rfl⟩

/-- Claim C13. The function `operator` maps every node selector operator other
than `In`, `NotIn`, `Exists`, `DoesNotExist`, `Gt` and `Lt` to the empty-string
operator. For every placement that has, among the selector terms of its
required node affinity, a match expression with such an operator: the
construction of its requirement fails (with a valid key, because the operator
is not recognized), `placementToSelector` returns a non-nil error, and `Admit`,
on an Update request with changed labels, a launcher pod on the node and
exactly one installation carrying that placement, returns the response that is
not allowed and carries that error, whatever the new labels are. -/
theorem Admit_denies_unrecognized_operator (d : Declared) (a : NodeAdmitter)
    (ar : v1beta1.AdmissionReview) (newNode oldNode : corev1.Node)
    (pods : List corev1.Pod) (kv : v1.KubeVirt) (workloads : v1.ComponentConfig)
    (placement : v1.NodePlacement)
    (st : corev1.NodeSelectorTerm) (ex : corev1.NodeSelectorRequirement)
    (hreq : IsNodeUpdate d ar newNode oldNode)
    (hchanged : DeepEqual newNode.Labels oldNode.Labels = false)
    (hpods : a.listLauncherPods newNode.Name = .ok pods) (hne : pods ≠ [])
    (hkvs : a.listKubeVirts = .ok [kv])
    (hw : kv.Spec.Workloads = some workloads)
    (hp : workloads.NodePlacement = some placement)
    (hst : st ∈ selectorterms placement) (hex : ex ∈ st.MatchExpressions)
    (hop : Unrecognized ex.Operator) :
    (∀ op, Unrecognized op → operator op = "") ∧
    (∃ err, labels.NewRequirement ex.Key (operator ex.Operator) ex.Values = .error err) ∧
    (validation.IsQualifiedName ex.Key = true →
      labels.NewRequirement ex.Key (operator ex.Operator) ex.Values =
        .error "operator '' is not recognized") ∧
    ∃ err, (placementToSelector placement).2 = some err ∧
      a.Admit d ar = .returns { Allowed := false, Message := some err } := by
  refine ⟨operator_unrecognized, ?_, ?_, ?_⟩
  · rw [operator_unrecognized _ hop]
    exact (NewRequirement_empty_operator ex.Key ex.Values).1
  · rw [operator_unrecognized _ hop]
    exact (NewRequirement_empty_operator ex.Key ex.Values).2
  · obtain ⟨err, herr⟩ := placementToSelector_unrecognized placement st ex hst hex hop
    refine ⟨err, by rw [herr], ?_⟩
    rw [Admit_update d a ar newNode oldNode hreq, hchanged,
      isNodeRunningVM_of_pods a newNode.Name pods hpods hne]
    have h : a.nodeWillStillRunVirtHandler newNode = .returns (false, some err) := by
      unfold NodeAdmitter.nodeWillStillRunVirtHandler
      rw [hkvs]
      simp only [List.length_singleton, gt_iff_lt, lt_self_iff_false, if_false,
        List.head?_cons]
      rw [hw]
      simp only []
      rw [hp]
      simp only []
      rw [herr]
    rw [h]
    rfl

/-- The worked input for C13: the placement whose second term has the operator
`Near`; the new labels `foo: updatedbar, workload: schedule` would satisfy the
first term, and the request is denied with the operator error. -/
theorem Admit_denies_unrecognized_operator_witness :
    Unrecognized "Near" ∧
    DeepEqual testNodeUpdated.Labels testNode.Labels = false ∧
    labels.NewRequirement "foo" (operator "Near") ["bar"] =
      .error "operator '' is not recognized" ∧
    (placementToSelector placementBadSecondTerm).2 = some "operator '' is not recognized" ∧
    (admitterWith [testPod] [kvWithPlacement placementBadSecondTerm]).Admit testDeclared
        (updateReview testNodeUpdated testNode) =
      .returns { Allowed := false, Message := some "operator '' is not recognized" } :=
  have hop : Unrecognized "Near" := by
    refine ⟨by decide, by decide, by decide, by decide, by decide, by decide⟩
  have h := Admit_denies_unrecognized_operator testDeclared
    (admitterWith [testPod] [kvWithPlacement placementBadSecondTerm])
    (updateReview testNodeUpdated testNode) testNodeUpdated testNode [testPod]
    (kvWithPlacement placementBadSecondTerm) { NodePlacement := some placementBadSecondTerm }
    placementBadSecondTerm termFooNear
    { Key := "foo", Operator := "Near", Values := ["bar"] }
    ⟨rfl, rfl, rfl, rfl, rfl⟩ (by decide) rfl (by decide) rfl rfl rfl
    (by decide) (by decide) hop
  ⟨hop, by decide, h.2.2.1 (by decide), by decide, by
    obtain ⟨err, h1, h2⟩ := h.2.2.2
    have h3 : (placementToSelector placementBadSecondTerm).2 =
        some "operator '' is not recognized" := by decide
    rw [h3] at h1
    injection h1 with h1
    rw [h2, ← h1]⟩

end admitters

/-! ## Theorems: backups of stale objects -/

namespace installstrategy

open cache util kubecli

/-- Looking up the key of the first entry finds its value. -/
theorem lookup_cons_self (a b : String) (t : StringMap) :
    List.lookup a ((a, b) :: t) = some b := by
  simp [List.lookup]

/-- Looking up another key than that of the first entry looks in the rest. -/
theorem lookup_cons_ne (k a b : String) (t : StringMap) (hne : k ≠ a) :
    List.lookup k ((a, b) :: t) = List.lookup k t := by
  have hka : (k == a) = false := by simpa using hne
  simp [List.lookup, hka]

end installstrategy

/-! ## Theorems: unchanged labels -/

namespace admitters

open webhooks

/-- A key is bound in a map exactly when it is among its keys. -/
theorem lookup_isSome_iff_mem_keys (k : String) :
    ∀ m : StringMap, (m.lookup k).isSome = true ↔ k ∈ m.map Prod.fst
  | [] => by simp
  | (a, b) :: t => by
    by_cases hka : k = a
    · subst hka
      simp [installstrategy.lookup_cons_self]
    · rw [installstrategy.lookup_cons_ne k a b t hka, lookup_isSome_iff_mem_keys k t]
      simp [hka]

/-- In a map with distinct keys every entry is the binding of its key. -/
theorem lookup_of_mem (k v : String) :
    ∀ m : StringMap, StringMap.WF m → (k, v) ∈ m → m.lookup k = some v
  | [], _, h => by simp at h
  | (a, b) :: t, hwf, h => by
    have hnd : a ∉ t.map Prod.fst ∧ (t.map Prod.fst).Nodup := by
      simpa [StringMap.WF] using hwf
    rcases List.mem_cons.mp h with heq | hmem
    · have h1 : k = a := congrArg Prod.fst heq
      have h2 : v = b := congrArg Prod.snd heq
      subst h1 h2
      exact installstrategy.lookup_cons_self k v t
    · have hk : k ∈ t.map Prod.fst := List.mem_map.mpr ⟨(k, v), hmem, rfl⟩
      have hka : k ≠ a := fun h => hnd.1 (h ▸ hk)
      rw [installstrategy.lookup_cons_ne k a b t hka]
      exact lookup_of_mem k v t hnd.2 hmem

/-- Two maps with distinct keys and the same bindings are deeply equal. -/
theorem DeepEqual_of_same_bindings (x y : StringMap) (hx : StringMap.WF x)
    (hy : StringMap.WF y) (h : ∀ k, x.lookup k = y.lookup k) :
    DeepEqual (some x) (some y) = true := by
  have hperm : (x.map Prod.fst).Perm (y.map Prod.fst) :=
    (List.perm_ext_iff_of_nodup hx hy).2 fun k => by
      rw [← lookup_isSome_iff_mem_keys k x, ← lookup_isSome_iff_mem_keys k y, h k]
  have hlen : x.length = y.length := by
    simpa using hperm.length_eq
  simp only [DeepEqual, hlen, beq_self_eq_true, Bool.true_and, List.all_eq_true, beq_iff_eq]
  intro kv hkv
  rw [← h kv.1]
  exact lookup_of_mem kv.1 kv.2 x hx hkv

/-- Labels that are the same and both absent or both present are deeply
equal. -/
theorem DeepEqual_of_SameLabels (a b : Option StringMap) (h : SameLabels a b) :
    DeepEqual a b = true := by
  rcases h with ⟨ha, hb⟩ | ⟨x, y, ha, hb, hx, hy, hsame⟩
  · subst ha hb
    rfl
  · subst ha hb
    exact DeepEqual_of_same_bindings x y hx hy hsame

/-- Claim C2, amended. For every Update admission request in which the old
node and the new node carry the same label key/value pairs and their labels
fields are both absent or both present, `reflect.DeepEqual` holds of the two
label maps and `Admit` allows the request, whatever the two queries would
answer: whatever pods run on the node and whatever the installation list
holds. -/
theorem Admit_allows_same_labels (d : Declared) (a : NodeAdmitter)
    (ar : v1beta1.AdmissionReview) (newNode oldNode : corev1.Node)
    (hreq : IsNodeUpdate d ar newNode oldNode)
    (hsame : SameLabels newNode.Labels oldNode.Labels) :
    DeepEqual newNode.Labels oldNode.Labels = true ∧
      a.Admit d ar = .returns NewPassingAdmissionResponse :=
  ⟨DeepEqual_of_SameLabels _ _ hsame,
    Admit_allows_DeepEqual_labels d a ar newNode oldNode hreq
      (DeepEqual_of_SameLabels _ _ hsame)⟩

/-- The worked inputs for the amended C2: the labels of the test node listed in
another order, and two nodes without labels field; a launcher pod runs on the
node and the placement `foo: nowhere` matches neither, and the installation
list query fails in the second case. -/
theorem Admit_allows_same_labels_witness :
    (SameLabels (some [("workload", "schedule"), ("foo", "bar")]) testNode.Labels ∧
      (admitterWith [testPod]
          [kvWithPlacement { NodeSelector := some [("foo", "nowhere")], Affinity := none }]).Admit
          testDeclared
          (updateReview { Name := "node01",
                          Labels := some [("workload", "schedule"), ("foo", "bar")] }
            testNode) =
        .returns NewPassingAdmissionResponse) ∧
    (SameLabels nodeNilLabels.Labels nodeNilLabels.Labels ∧
      (admitterAnswering (.ok [testPod]) (.error "kubevirts: timeout")).Admit testDeclared
          (updateReview nodeNilLabels nodeNilLabels) =
        .returns NewPassingAdmissionResponse) :=
  have h1 : SameLabels (some [("workload", "schedule"), ("foo", "bar")]) testNode.Labels :=
    Or.inr ⟨_, _, rfl, rfl, by unfold StringMap.WF; decide, by unfold StringMap.WF; decide,
      fun k => by
      by_cases hw : k = "workload"
      · subst hw; decide
      · by_cases hf : k = "foo"
        · subst hf; decide
        · rw [installstrategy.lookup_cons_ne k _ _ _ hw,
            installstrategy.lookup_cons_ne k _ _ _ hf,
            installstrategy.lookup_cons_ne k _ _ _ hf,
            installstrategy.lookup_cons_ne k _ _ _ hw]⟩
  have h2 : SameLabels nodeNilLabels.Labels nodeNilLabels.Labels := Or.inl ⟨rfl, rfl⟩
  ⟨⟨h1, (Admit_allows_same_labels testDeclared _
      (updateReview { Name := "node01",
                      Labels := some [("workload", "schedule"), ("foo", "bar")] } testNode)
      _ testNode ⟨rfl, rfl, rfl, rfl, rfl⟩ h1).2⟩,
    ⟨h2, (Admit_allows_same_labels testDeclared _ (updateReview nodeNilLabels nodeNilLabels)
      nodeNilLabels nodeNilLabels ⟨rfl, rfl, rfl, rfl, rfl⟩ h2).2⟩⟩

end admitters
